import Mathlib

/-!
# Thrift pipe transports: TNamedPipe, TPipe, TPipeServer

A shallow embedding of `lib/cpp/src/transport/{TNamedPipe,TPipe,TPipeServer}.cpp`.

Configuration: the `_WIN32` branches of the preprocessor conditionals are the
ones embedded.  `TNamedPipe` exists for Windows only, `TPipe.h` calls itself the
"Windows Pipes implementation", and `TPipe.cpp` calls `PeekNamedPipe`,
`GetLastError` and `WriteFile` outside any conditional.

Conventions.
* Every method takes the object (`self`) and the world and returns an `Outcome`:
  the returned value or the thrown `TTransportException`, the object afterwards
  and the world afterwards.  A C++ `throw` keeps the side effects made before it.
* The operating system is a parameter `sys : Sys σ`: one transition function
  that answers every system or C-runtime call on an arbitrary world `σ`.  The
  world also records the trace of calls issued, so "issues no OS call" and
  "exactly one OS read call" are statements about the trace.
* Handles are `Int` (`int` in `TPipe`, `HANDLE` in `TNamedPipe`); the invalid
  sentinel is `-1`.  Windows handle values fit in 32 bits, so the `(int)` casts
  of the source are the identity.  Lengths and byte counts are `uint32_t`,
  `DWORD` or `size_t` in the source and `Nat` here; no arithmetic on them can
  overflow in the embedded functions (the only product is `len * 1`).  The
  one computation that can overflow is `TimeoutSeconds_ * 1000` in
  `TPipe::open`, in `long`, which is 32 bits wide under `_WIN32`; it is
  embedded with two's-complement wrap-around (`wrapInt32`).
* A local or a member that the source leaves uninitialised is an explicit
  argument (`raw`, `cbRead0`, `undef`), so theorems hold for every value it
  may have.
* `GlobalOutput.perror` and `GlobalOutput.printf` write to a process-wide log
  and are not part of the state; the `GetLastError()` evaluated for their
  argument is a call like any other.
-/

namespace Thrift

/-! ## Values -/

abbrev Handle := Int

/-- A `FILE*`; `0` is `NULL`. -/
abbrev FilePtr := Nat

abbrev Byte := UInt8

/-- Win32 `INVALID_HANDLE_VALUE`, `(HANDLE)-1`. -/
def INVALID_HANDLE_VALUE : Handle := -1

/-- The null `FILE*`. -/
def NULL : FilePtr := 0

/-- Win32 error code `ERROR_INVALID_HANDLE`. -/
def ERROR_INVALID_HANDLE : Nat := 6

/-- Win32 error code `ERROR_BROKEN_PIPE`. -/
def ERROR_BROKEN_PIPE : Nat := 109

/-- Win32 error code `ERROR_PIPE_BUSY`. -/
def ERROR_PIPE_BUSY : Nat := 231

/-- Win32 error code `ERROR_NO_DATA` (the pipe is being closed). -/
def ERROR_NO_DATA : Nat := 232

/-- Win32 error code `ERROR_MORE_DATA`. -/
def ERROR_MORE_DATA : Nat := 234

/-- Win32 error code `ERROR_PIPE_CONNECTED`. -/
def ERROR_PIPE_CONNECTED : Nat := 535

/-- Modelled from the spec: `TTransportException.h` is not among the sources.
The kinds are the three of the spec's error taxonomy (`NotOpen`, `TimedOut`,
`Unknown`), under the names the sources throw them with. -/
inductive TTransportExceptionType where
  | UNKNOWN
  | NOT_OPEN
  | TIMED_OUT
  deriving DecidableEq

/-- Modelled from the spec: `TTransportException.h` is not among the sources.
An exception carries its kind and the message the source constructs it with. -/
structure TTransportException where
  type : TTransportExceptionType
  message : String
  deriving DecidableEq

/-! ## The operating system -/

/-- The system and C-runtime calls the three classes issue, with the arguments
that vary.  `get_osfhandle f` stands for `_get_osfhandle(_fileno(f))`. -/
inductive Call where
  | ReadFile (hFile : Handle) (nNumberOfBytesToRead : Nat)
  | WriteFile (hFile : Handle) (lpBuffer : List Byte) (nNumberOfBytesToWrite : Nat)
  | CloseHandle (hObject : Handle)
  | PeekNamedPipe (hNamedPipe : Handle)
  | GetLastError
  | CreateFile (lpFileName : String)
  | CreatePipe
  | CreateNamedPipe (lpName : String) (nMaxInstances : Int) (nBufferSize : Int)
  | ConnectNamedPipe (hNamedPipe : Handle)
  | CancelIo (hFile : Handle)
  | fopen (filename : String)
  | fclose (stream : FilePtr)
  | ftell (stream : FilePtr)
  | sleep (ms : Int)
  | get_osfhandle (stream : FilePtr)
  deriving DecidableEq

/-- What `ReadFile` leaves behind: its return value, `*lpNumberOfBytesRead`
and the bytes it stored in the buffer. -/
structure ReadResult where
  fSuccess : Bool
  cbRead : Nat
  data : List Byte
  deriving DecidableEq

/-- What `WriteFile` leaves behind: its return value and
`*lpNumberOfBytesWritten`. -/
structure WriteResult where
  fSuccess : Bool
  cbWritten : Nat
  deriving DecidableEq

/-- What `PeekNamedPipe` leaves behind: whether it returned nonzero, and
`*lpTotalBytesAvail` (which the callers set to `0` before the call). -/
structure PeekResult where
  ret : Bool
  bytesAvail : Nat
  deriving DecidableEq

/-- The type of the answer to each call.  `CreatePipe` answers `none` on
failure and `some (hReadPipe, hWritePipe)` on success. -/
@[reducible]
def Resp : Call → Type
  | .ReadFile _ _ => ReadResult
  | .WriteFile _ _ _ => WriteResult
  | .CloseHandle _ => Bool
  | .PeekNamedPipe _ => PeekResult
  | .GetLastError => Nat
  | .CreateFile _ => Handle
  | .CreatePipe => Option (Handle × Handle)
  | .CreateNamedPipe _ _ _ => Handle
  | .ConnectNamedPipe _ => Bool
  | .CancelIo _ => Bool
  | .fopen _ => FilePtr
  | .fclose _ => Int
  | .ftell _ => Int
  | .sleep _ => Unit
  | .get_osfhandle _ => Handle

/-- An operating system over worlds `σ`: the answer to a call and the world
after it. -/
abbrev Sys (σ : Type) := (c : Call) → σ → Resp c × σ

/-- The world as the program sees it: the operating system's state and the
calls issued so far, oldest first. -/
structure World (σ : Type) where
  os : σ
  trace : List Call

/-- Issue one call: the system answers and the call is recorded. -/
def sysCall {σ : Type} (sys : Sys σ) (c : Call) (w : World σ) : Resp c × World σ :=
  ((sys c w.os).1, { os := (sys c w.os).2, trace := w.trace ++ [c] })

/-- The result of a method call: value or exception, object and world after. -/
structure Outcome (α S σ : Type) where
  result : Except TTransportException α
  self : S
  world : World σ

/-- Whether a call is an OS read call. -/
def Call.isRead : Call → Bool
  | .ReadFile _ _ => true
  | _ => false

/-- Whether a call is an OS write call. -/
def Call.isWrite : Call → Bool
  | .WriteFile _ _ _ => true
  | _ => false

/-- Whether a call is an OS close call. -/
def Call.isClose : Call → Bool
  | .CloseHandle _ => true
  | .fclose _ => true
  | _ => false

/-! ## TNamedPipe -/

/-- The members of `TNamedPipe`. -/
structure TNamedPipe where
  pipeName_ : String
  hPipe_ : Handle
  deriving DecidableEq

/-- The constructor `TNamedPipe(std::string pipeName)`: it assigns the name and
leaves `hPipe_` as it finds it in the raw storage. -/
def TNamedPipe.new (raw : TNamedPipe) (pipeName : String) : TNamedPipe :=
  { raw with pipeName_ := pipeName }

/-- The method `TNamedPipe::isOpen`. -/
def TNamedPipe.isOpen (self : TNamedPipe) : Bool :=
  self.hPipe_ != INVALID_HANDLE_VALUE

/-- The method `TNamedPipe::peek`. -/
def TNamedPipe.peek {σ : Type} (sys : Sys σ) (self : TNamedPipe) (w : World σ) :
    Outcome Bool TNamedPipe σ :=
  if !self.isOpen then
    ⟨.error ⟨.NOT_OPEN, "Called peek on non-open pipe"⟩, self, w⟩
  else if self.hPipe_ != INVALID_HANDLE_VALUE then
    let p := sysCall sys (.PeekNamedPipe self.hPipe_) w
    ⟨.ok (p.1.ret && decide (p.1.bytesAvail > 0)), self, p.2⟩
  else
    ⟨.ok false, self, w⟩

/-- The method `TNamedPipe::close`. -/
def TNamedPipe.close {σ : Type} (sys : Sys σ) (self : TNamedPipe) (w : World σ) :
    Outcome Unit TNamedPipe σ :=
  let w1 := if self.isOpen then (sysCall sys (.CloseHandle self.hPipe_) w).2 else w
  ⟨.ok (), { self with hPipe_ := INVALID_HANDLE_VALUE }, w1⟩

/-- The method `TNamedPipe::read`: the value is the count returned and the
bytes `ReadFile` stored in `buf`. -/
def TNamedPipe.read {σ : Type} (sys : Sys σ) (self : TNamedPipe) (len : Nat) (w : World σ) :
    Outcome (Nat × List Byte) TNamedPipe σ :=
  if !self.isOpen then
    ⟨.error ⟨.NOT_OPEN, "Called read on non-open pipe"⟩, self, w⟩
  else
    let r := sysCall sys (.ReadFile self.hPipe_ len) w
    if !r.1.fSuccess then
      ⟨.error ⟨.UNKNOWN, "Read not successful"⟩, self, r.2⟩
    else
      ⟨.ok (r.1.cbRead, r.1.data), self, r.2⟩

/-- The method `TNamedPipe::write`. -/
def TNamedPipe.write {σ : Type} (sys : Sys σ) (self : TNamedPipe) (buf : List Byte) (len : Nat)
    (w : World σ) : Outcome Unit TNamedPipe σ :=
  if !self.isOpen then
    ⟨.error ⟨.NOT_OPEN, "Called write on non-open pipe"⟩, self, w⟩
  else
    let r := sysCall sys (.WriteFile self.hPipe_ buf len) w
    if !r.1.fSuccess then
      ⟨.error ⟨.UNKNOWN, "Write not successful"⟩, self, r.2⟩
    else
      ⟨.ok (), self, r.2⟩

/-- The method `TNamedPipe::open`.  There is no test of `isOpen()`; when
`CreateFile` fails with `ERROR_PIPE_BUSY` control reaches the end of the
function (the retry is a comment in the source). -/
def TNamedPipe.open {σ : Type} (sys : Sys σ) (self : TNamedPipe) (w : World σ) :
    Outcome Unit TNamedPipe σ :=
  let c := sysCall sys (.CreateFile self.pipeName_) w
  let s1 := { self with hPipe_ := c.1 }
  if s1.hPipe_ != INVALID_HANDLE_VALUE then
    ⟨.ok (), s1, c.2⟩
  else
    let e := sysCall sys .GetLastError c.2
    if e.1 != ERROR_PIPE_BUSY then
      ⟨.error ⟨.NOT_OPEN, "Unable to open pipe"⟩, s1, e.2⟩
    else
      ⟨.ok (), s1, e.2⟩

/-! ## TPipe -/

/-- The members of `TPipe`. -/
structure TPipe where
  pipename_ : String
  fPipe_ : FilePtr
  hPipe_ : Int
  hPipeWrt_ : Int
  TimeoutSeconds_ : Int
  isAnonymous : Bool
  deriving DecidableEq

/-- The constructor `TPipe(int hpipe)`; `hPipeWrt_` is not initialised. -/
def TPipe.ofHandle (raw : TPipe) (hpipe : Int) : TPipe :=
  { raw with pipename_ := "", hPipe_ := hpipe, TimeoutSeconds_ := 3, isAnonymous := false,
             fPipe_ := NULL }

/-- The constructor `TPipe(FILE* pfile)`; `hPipeWrt_` is not initialised. -/
def TPipe.ofFile (raw : TPipe) (pfile : FilePtr) : TPipe :=
  { raw with pipename_ := "", hPipe_ := -1, TimeoutSeconds_ := 3, isAnonymous := false,
             fPipe_ := pfile }

/-- The constructor `TPipe(string pipename)`; `hPipeWrt_` is not initialised. -/
def TPipe.ofName (raw : TPipe) (pipename : String) : TPipe :=
  { raw with pipename_ := pipename, hPipe_ := -1, TimeoutSeconds_ := 3, isAnonymous := false,
             fPipe_ := NULL }

/-- The constructor `TPipe(int hPipeRd, int hPipeWrt)`; `fPipe_` is not
initialised. -/
def TPipe.ofHandles (raw : TPipe) (hPipeRd hPipeWrt : Int) : TPipe :=
  { raw with pipename_ := "", hPipe_ := hPipeRd, hPipeWrt_ := hPipeWrt, TimeoutSeconds_ := 3,
             isAnonymous := true }

/-- The constructor `TPipe()`; `fPipe_`, `hPipeWrt_` and `isAnonymous` are not
initialised. -/
def TPipe.default (raw : TPipe) : TPipe :=
  { raw with pipename_ := "", hPipe_ := -1, TimeoutSeconds_ := 3 }

/-- The method `TPipe::isOpen`. -/
def TPipe.isOpen (self : TPipe) : Bool :=
  self.hPipe_ != -1

/-- The method `TPipe::peek`.  When neither branch is taken control falls off
the end of the function and the value is indeterminate (`undef`). -/
def TPipe.peek {σ : Type} (sys : Sys σ) (self : TPipe) (undef : Bool) (w : World σ) :
    Outcome Bool TPipe σ :=
  if !self.isOpen then
    ⟨.ok false, self, w⟩
  else if self.hPipe_ != -1 then
    let p := sysCall sys (.PeekNamedPipe self.hPipe_) w
    ⟨.ok (p.1.ret && decide (p.1.bytesAvail > 0)), self, p.2⟩
  else if self.fPipe_ != NULL then
    let sz := sysCall sys (.ftell self.fPipe_) w
    ⟨.ok (decide (sz.1 > 0)), self, sz.2⟩
  else
    ⟨.ok undef, self, w⟩

/-- The method `TPipe::close`.  The embedding answers `fclose` for every pointer;
in the source the call is defined only when `fPipe_` is a stream of the C
runtime, and `TPipe(int, int)` and `TPipe()` leave the member uninitialised. -/
def TPipe.close {σ : Type} (sys : Sys σ) (self : TPipe) (w : World σ) : Outcome Unit TPipe σ :=
  if self.isOpen then
    let w1 := if self.fPipe_ != NULL then (sysCall sys (.fclose self.fPipe_) w).2 else w
    let s1 := if self.fPipe_ != NULL then { self with fPipe_ := NULL } else self
    if s1.hPipe_ != -1 then
      ⟨.ok (), { s1 with hPipe_ := -1 }, (sysCall sys (.CloseHandle s1.hPipe_) w1).2⟩
    else
      ⟨.ok (), s1, w1⟩
  else
    ⟨.ok (), self, w⟩

/-- The Windows wrapper `TPipe::fread`: the count returned, the bytes `ReadFile`
stored in `_DstBuf` and the world after.  `cbRead0` is the indeterminate initial
value of the local `cbRead`. -/
def TPipe.fread {σ : Type} (sys : Sys σ) (self : TPipe) (_ElementSize _Count : Nat)
    (cbRead0 : Nat) (w : World σ) : (Nat × List Byte) × World σ :=
  if self.hPipe_ != -1 then
    let r := sysCall sys (.ReadFile self.hPipe_ (_Count * _ElementSize)) w
    if !r.1.fSuccess then
      let e := sysCall sys .GetLastError r.2
      if e.1 != ERROR_MORE_DATA then ((0, r.1.data), e.2) else ((r.1.cbRead, r.1.data), e.2)
    else
      ((r.1.cbRead, r.1.data), r.2)
  else
    ((cbRead0, []), w)

/-- The Windows wrapper `TPipe::fwrite`: the count returned, or the exception. -/
def TPipe.fwrite {σ : Type} (sys : Sys σ) (self : TPipe) (_Str : List Byte) (_Size _Count : Nat)
    (w : World σ) : Except TTransportException Nat × World σ :=
  let WritePipe := if self.isAnonymous then self.hPipeWrt_ else self.hPipe_
  let r := sysCall sys (.WriteFile WritePipe _Str (_Size * _Count)) w
  if !r.1.fSuccess then
    let e := sysCall sys .GetLastError r.2
    (.error ⟨.NOT_OPEN, "Write to pipe failed"⟩, e.2)
  else
    (.ok r.1.cbWritten, r.2)

/-- The method `TPipe::read`: the value is the count returned and the bytes
stored in `buf`. -/
def TPipe.read {σ : Type} (sys : Sys σ) (self : TPipe) (len : Nat) (cbRead0 : Nat)
    (w : World σ) : Outcome (Nat × List Byte) TPipe σ :=
  if !self.isOpen then
    ⟨.error ⟨.NOT_OPEN, "Called read on non-open pipe"⟩, self, w⟩
  else
    let r := self.fread sys 1 len cbRead0 w
    ⟨.ok r.1, self, r.2⟩

/-- The method `TPipe::write`. -/
def TPipe.write {σ : Type} (sys : Sys σ) (self : TPipe) (buf : List Byte) (len : Nat)
    (w : World σ) : Outcome Unit TPipe σ :=
  if !self.isOpen then
    ⟨.error ⟨.NOT_OPEN, "Called write on non-open pipe"⟩, self, w⟩
  else
    match self.fwrite sys buf 1 len w with
    | (.error e, w1) => ⟨.error e, self, w1⟩
    | (.ok byteswritten, w1) =>
      if byteswritten < len then
        let e := sysCall sys .GetLastError w1
        ⟨.error ⟨.NOT_OPEN, "Write to pipe failed"⟩, self, e.2⟩
      else
        ⟨.ok (), self, w1⟩

/-- Reduction of a value to the 32-bit two's-complement range of `long` and
`int` under `_WIN32`. -/
def wrapInt32 (x : Int) : Int :=
  (x + 2 ^ 31) % 2 ^ 32 - 2 ^ 31

/-- The accessor `TPipe::setConnectTimeout`. -/
def TPipe.setConnectTimeout (self : TPipe) (seconds : Int) : TPipe :=
  { self with TimeoutSeconds_ := seconds }

/-- The local `retries` of `TPipe::open`: `TimeoutSeconds_ * 1000 / SleepInterval`
in `long` arithmetic, with `SleepInterval = 500`: the product wraps around
when it leaves the range of `long`, the division truncates, and its value fits
the `int` it is assigned to. -/
def TPipe.retries (self : TPipe) : Int :=
  (wrapInt32 (self.TimeoutSeconds_ * 1000)).tdiv 500

/-- The `for` loop of `TPipe::open` with `n` passes left: the value of `fPipe_`
and the world when the loop is left. -/
def TPipe.openLoop {σ : Type} (sys : Sys σ) (pipename : String) :
    Nat → FilePtr → World σ → FilePtr × World σ
  | 0, fPipe, w => (fPipe, w)
  | n + 1, _, w =>
    let f := sysCall sys (.fopen pipename) w
    if f.1 != NULL then (f.1, f.2)
    else TPipe.openLoop sys pipename n f.1 (sysCall sys (.sleep 500) f.2).2

/-- The method `TPipe::open`.  The loop runs `retries` times when `retries` is
positive and not at all otherwise. -/
def TPipe.open {σ : Type} (sys : Sys σ) (self : TPipe) (w : World σ) : Outcome Unit TPipe σ :=
  if self.isOpen then
    ⟨.ok (), self, w⟩
  else
    let l := TPipe.openLoop sys self.pipename_ self.retries.toNat self.fPipe_ w
    let s1 := { self with fPipe_ := l.1 }
    if s1.fPipe_ == NULL then
      ⟨.error ⟨.NOT_OPEN, "Unable to open pipe"⟩, s1, l.2⟩
    else
      let h := sysCall sys (.get_osfhandle s1.fPipe_) l.2
      ⟨.ok (), { s1 with hPipe_ := h.1 }, h.2⟩

/-! ## The transport interface

`TNamedPipe` and `TPipe` both derive from `TVirtualTransport`; a caller holds
either through the `TTransport` interface. -/

/-- A transport object of either class. -/
inductive Transport where
  | namedPipe (t : TNamedPipe)
  | pipe (t : TPipe)
  deriving DecidableEq

/-- Re-tag the object of an outcome. -/
def Outcome.lift {α S T σ : Type} (f : S → T) (o : Outcome α S σ) : Outcome α T σ :=
  ⟨o.result, f o.self, o.world⟩

/-- Dispatch of `isOpen()`. -/
def Transport.isOpen : Transport → Bool
  | .namedPipe t => t.isOpen
  | .pipe t => t.isOpen

/-- Dispatch of `peek()`. -/
def Transport.peek {σ : Type} (sys : Sys σ) (t : Transport) (undef : Bool) (w : World σ) :
    Outcome Bool Transport σ :=
  match t with
  | .namedPipe t => (t.peek sys w).lift .namedPipe
  | .pipe t => (t.peek sys undef w).lift .pipe

/-- Dispatch of `close()`. -/
def Transport.close {σ : Type} (sys : Sys σ) (t : Transport) (w : World σ) :
    Outcome Unit Transport σ :=
  match t with
  | .namedPipe t => (t.close sys w).lift .namedPipe
  | .pipe t => (t.close sys w).lift .pipe

/-- Dispatch of `read(buf, len)`. -/
def Transport.read {σ : Type} (sys : Sys σ) (t : Transport) (len : Nat) (cbRead0 : Nat)
    (w : World σ) : Outcome (Nat × List Byte) Transport σ :=
  match t with
  | .namedPipe t => (t.read sys len w).lift .namedPipe
  | .pipe t => (t.read sys len cbRead0 w).lift .pipe

/-- Dispatch of `write(buf, len)`. -/
def Transport.write {σ : Type} (sys : Sys σ) (t : Transport) (buf : List Byte) (len : Nat)
    (w : World σ) : Outcome Unit Transport σ :=
  match t with
  | .namedPipe t => (t.write sys buf len w).lift .namedPipe
  | .pipe t => (t.write sys buf len w).lift .pipe

/-- Dispatch of `open()`. -/
def Transport.open {σ : Type} (sys : Sys σ) (t : Transport) (w : World σ) :
    Outcome Unit Transport σ :=
  match t with
  | .namedPipe t => (t.open sys w).lift .namedPipe
  | .pipe t => (t.open sys w).lift .pipe

/-- The handle a transport passes to `ReadFile`. -/
def Transport.readHandle : Transport → Handle
  | .namedPipe t => t.hPipe_
  | .pipe t => t.hPipe_

/-- The handle a transport passes to `WriteFile`. -/
def Transport.writeHandle : Transport → Handle
  | .namedPipe t => t.hPipe_
  | .pipe t => if t.isAnonymous then t.hPipeWrt_ else t.hPipe_

/-! ## TPipeServer -/

/-- The macro `TPIPE_SERVER_MAX_CONNS_DEFAULT` of `TPipeServer.h` under `_WIN32`. -/
def TPIPE_SERVER_MAX_CONNS_DEFAULT : Int := 10

/-- Conversion of a `uint32_t` to `int`. -/
def toInt32 (n : Nat) : Int :=
  if n % 2 ^ 32 < 2 ^ 31 then (n % 2 ^ 32 : Nat) else ((n % 2 ^ 32 : Nat) : Int) - 2 ^ 32

/-- The members of `TPipeServer` (`pipenameW_` is not used under `_WIN32`). -/
structure TPipeServer where
  pipename_ : String
  bufsize_ : Int
  maxconns_ : Int
  Pipe_ : Int
  PipeW_ : Int
  ClientAnonRead : Int
  ClientAnonWrite : Int
  isAnonymous : Bool
  deriving DecidableEq

/-- The method `TPipeServer::TCreateAnonPipe`.  The two security-descriptor
calls before `CreatePipe` act on locals only and are left out. -/
def TPipeServer.TCreateAnonPipe {σ : Type} (sys : Sys σ) (self : TPipeServer) (w : World σ) :
    Outcome Bool TPipeServer σ :=
  let p1 := sysCall sys .CreatePipe w
  match p1.1 with
  | none =>
    let e := sysCall sys .GetLastError p1.2
    ⟨.ok false, self, e.2⟩
  | some (ClientAnonReadH, PipeW_H) =>
    let p2 := sysCall sys .CreatePipe p1.2
    match p2.1 with
    | none =>
      let e := sysCall sys .GetLastError p2.2
      let c1 := sysCall sys (.CloseHandle ClientAnonReadH) e.2
      let c2 := sysCall sys (.CloseHandle PipeW_H) c1.2
      ⟨.ok false, self, c2.2⟩
    | some (Pipe_H, ClientAnonWriteH) =>
      ⟨.ok true,
       { self with ClientAnonRead := ClientAnonReadH, ClientAnonWrite := ClientAnonWriteH,
                   Pipe_ := Pipe_H, PipeW_ := PipeW_H },
       p2.2⟩

/-- The body shared by the two anonymous constructors, run on the initialised
members. -/
def TPipeServer.anonBody {σ : Type} (sys : Sys σ) (self : TPipeServer) (w : World σ) :
    Outcome Unit TPipeServer σ :=
  let c := self.TCreateAnonPipe sys w
  match c.result with
  | .error e => ⟨.error e, c.self, c.world⟩
  | .ok true => ⟨.ok (), c.self, c.world⟩
  | .ok false =>
    let e := sysCall sys .GetLastError c.world
    ⟨.error ⟨.NOT_OPEN, " TPipeServer Create(Anon)Pipe failed"⟩, c.self, e.2⟩

/-- The constructor `TPipeServer(string pipename, uint32_t bufsize)`. -/
def TPipeServer.named2 (raw : TPipeServer) (pipename : String) (bufsize : Nat) : TPipeServer :=
  { raw with pipename_ := pipename, bufsize_ := toInt32 bufsize, Pipe_ := -1,
             isAnonymous := false, maxconns_ := TPIPE_SERVER_MAX_CONNS_DEFAULT }

/-- The constructor `TPipeServer(string pipename, uint32_t bufsize, byte
maxconnections)`; `maxconnections` is a `byte`, so below `256`. -/
def TPipeServer.named3 (raw : TPipeServer) (pipename : String) (bufsize : Nat)
    (maxconnections : Nat) : TPipeServer :=
  { raw with pipename_ := pipename, bufsize_ := toInt32 bufsize, Pipe_ := -1,
             isAnonymous := false,
             maxconns_ := if maxconnections > 0 then (maxconnections : Int) else 1 }

/-- The constructor `TPipeServer(string pipename)`. -/
def TPipeServer.named1 (raw : TPipeServer) (pipename : String) : TPipeServer :=
  { raw with pipename_ := pipename, bufsize_ := 1024, Pipe_ := -1,
             isAnonymous := false, maxconns_ := TPIPE_SERVER_MAX_CONNS_DEFAULT }

/-- The constructor `TPipeServer(uint32_t bufsize)`. -/
def TPipeServer.anon1 {σ : Type} (sys : Sys σ) (raw : TPipeServer) (bufsize : Nat)
    (w : World σ) : Outcome Unit TPipeServer σ :=
  TPipeServer.anonBody sys
    { raw with pipename_ := "", bufsize_ := toInt32 bufsize, Pipe_ := -1,
               isAnonymous := true, maxconns_ := 1 } w

/-- The constructor `TPipeServer()`. -/
def TPipeServer.anon0 {σ : Type} (sys : Sys σ) (raw : TPipeServer) (w : World σ) :
    Outcome Unit TPipeServer σ :=
  TPipeServer.anonBody sys
    { raw with pipename_ := "", bufsize_ := 1024, Pipe_ := -1,
               isAnonymous := true, maxconns_ := 1 } w

/-- The method `TPipeServer::close` (Windows).  `CloseHandle` raises no C++
exception, so the handler of the `try` block never runs. -/
def TPipeServer.close {σ : Type} (sys : Sys σ) (self : TPipeServer) (w : World σ) :
    Outcome Unit TPipeServer σ :=
  if !self.isAnonymous then
    if self.Pipe_ != -1 then
      ⟨.ok (), { self with Pipe_ := -1 }, (sysCall sys (.CloseHandle self.Pipe_) w).2⟩
    else
      ⟨.ok (), self, w⟩
  else
    let c1 := sysCall sys (.CloseHandle self.Pipe_) w
    let c2 := sysCall sys (.CloseHandle self.PipeW_) c1.2
    let c3 := sysCall sys (.CloseHandle self.ClientAnonRead) c2.2
    let c4 := sysCall sys (.CloseHandle self.ClientAnonWrite) c3.2
    ⟨.ok (), self, c4.2⟩

/-- The method `TPipeServer::interrupt` (Windows). -/
def TPipeServer.interrupt {σ : Type} (sys : Sys σ) (self : TPipeServer) (w : World σ) :
    Outcome Unit TPipeServer σ :=
  if self.Pipe_ != -1 then
    ⟨.ok (), self, (sysCall sys (.CancelIo self.Pipe_) w).2⟩
  else
    ⟨.ok (), self, w⟩

/-- The method `TPipeServer::TCreateNamedPipe` (Windows).  The calls that build
the security descriptor act on locals only and are left out.  On failure
`GetLastError` is evaluated for the log and again for the exception. -/
def TPipeServer.TCreateNamedPipe {σ : Type} (sys : Sys σ) (self : TPipeServer) (w : World σ) :
    Outcome Bool TPipeServer σ :=
  let c := sysCall sys (.CreateNamedPipe self.pipename_ self.maxconns_ self.bufsize_) w
  if c.1 = INVALID_HANDLE_VALUE then
    let e1 := sysCall sys .GetLastError c.2
    let e2 := sysCall sys .GetLastError e1.2
    ⟨.error ⟨.NOT_OPEN, "TCreateNamedPipe() failed"⟩, { self with Pipe_ := -1 }, e2.2⟩
  else
    ⟨.ok true, { self with Pipe_ := c.1 }, c.2⟩

/-- The method `TPipeServer::acceptImpl` (Windows).  The body of its
`while (true)` loop leaves the loop or throws on the first pass, so it is
embedded as straight-line code.  `raw` is the storage of the new `TPipe`. -/
def TPipeServer.acceptImpl {σ : Type} (sys : Sys σ) (self : TPipeServer) (raw : TPipe)
    (w : World σ) : Outcome TPipe TPipeServer σ :=
  if self.isAnonymous then
    let r := sysCall sys (.ReadFile self.Pipe_ 0) w
    if !r.1.fSuccess then
      let e := sysCall sys .GetLastError r.2
      if e.1 != ERROR_MORE_DATA then
        let e2 := sysCall sys .GetLastError e.2
        ⟨.error ⟨.NOT_OPEN, " TPipeServer unable to initiate pipe comms"⟩, self, e2.2⟩
      else
        ⟨.ok (TPipe.ofHandles raw self.Pipe_ self.PipeW_), self, e.2⟩
    else
      ⟨.ok (TPipe.ofHandles raw self.Pipe_ self.PipeW_), self, r.2⟩
  else
    let c := self.TCreateNamedPipe sys w
    match c.result with
    | .error e => ⟨.error e, c.self, c.world⟩
    | .ok false => ⟨.error ⟨.NOT_OPEN, " TPipeServer CreateNamedPipe failed"⟩, c.self, c.world⟩
    | .ok true =>
      let n := sysCall sys (.ConnectNamedPipe c.self.Pipe_) c.world
      if n.1 then
        ⟨.ok (TPipe.ofHandle raw c.self.Pipe_), c.self, n.2⟩
      else
        let e := sysCall sys .GetLastError n.2
        if e.1 == ERROR_PIPE_CONNECTED then
          ⟨.ok (TPipe.ofHandle raw c.self.Pipe_), c.self, e.2⟩
        else
          let cl := c.self.close sys e.2
          let e2 := sysCall sys .GetLastError cl.world
          ⟨.error ⟨.NOT_OPEN, "TPipeServer: client connection failed"⟩, cl.self, e2.2⟩

/-! ## Two operating-system models

The methods above run on any `Sys σ`.  Two concrete systems are used where a
claim speaks of a modelled pipe or handle table, and to evaluate the code on
concrete inputs. -/

/-- A duplex pipe between two handles: one FIFO byte queue per direction.
`toB` holds what was written on `hA` and is not yet read on `hB`. -/
structure Duplex where
  hA : Handle
  hB : Handle
  openA : Bool
  openB : Bool
  toA : List Byte
  toB : List Byte
  lastError : Nat
  deriving DecidableEq

/-- The duplex pipe as an operating system.  A read delivers the front of the
queue, at most the number of bytes requested; it fails with
`ERROR_BROKEN_PIPE` when the queue is empty and the peer has closed.  (A read
on an empty queue with the peer still open would block; with no second actor
the model answers zero bytes.)  A write appends to the peer's queue and fails
with `ERROR_NO_DATA` when the peer has closed.  Calls on other handles fail
with `ERROR_INVALID_HANDLE`; calls that create or open something fail. -/
def duplexSys : Sys Duplex
  | .ReadFile h n, s =>
    if h = s.hA && s.openA then
      if s.toA.isEmpty && !s.openB then
        (⟨false, 0, []⟩, { s with lastError := ERROR_BROKEN_PIPE })
      else
        (⟨true, min n s.toA.length, s.toA.take n⟩, { s with toA := s.toA.drop n })
    else if h = s.hB && s.openB then
      if s.toB.isEmpty && !s.openA then
        (⟨false, 0, []⟩, { s with lastError := ERROR_BROKEN_PIPE })
      else
        (⟨true, min n s.toB.length, s.toB.take n⟩, { s with toB := s.toB.drop n })
    else
      (⟨false, 0, []⟩, { s with lastError := ERROR_INVALID_HANDLE })
  | .WriteFile h buf n, s =>
    if h = s.hA && s.openA then
      if !s.openB then (⟨false, 0⟩, { s with lastError := ERROR_NO_DATA })
      else (⟨true, n⟩, { s with toB := s.toB ++ buf.take n })
    else if h = s.hB && s.openB then
      if !s.openA then (⟨false, 0⟩, { s with lastError := ERROR_NO_DATA })
      else (⟨true, n⟩, { s with toA := s.toA ++ buf.take n })
    else
      (⟨false, 0⟩, { s with lastError := ERROR_INVALID_HANDLE })
  | .CloseHandle h, s =>
    if h = s.hA && s.openA then (true, { s with openA := false })
    else if h = s.hB && s.openB then (true, { s with openB := false })
    else (false, { s with lastError := ERROR_INVALID_HANDLE })
  | .PeekNamedPipe h, s =>
    if h = s.hA && s.openA then (⟨true, s.toA.length⟩, s)
    else if h = s.hB && s.openB then (⟨true, s.toB.length⟩, s)
    else (⟨false, 0⟩, { s with lastError := ERROR_INVALID_HANDLE })
  | .GetLastError, s => (s.lastError, s)
  | .CreateFile _, s => (INVALID_HANDLE_VALUE, s)
  | .CreatePipe, s => (none, s)
  | .CreateNamedPipe _ _ _, s => (INVALID_HANDLE_VALUE, s)
  | .ConnectNamedPipe _, s => (false, s)
  | .CancelIo _, s => (false, s)
  | .fopen _, s => (NULL, s)
  | .fclose _, s => (-1, s)
  | .ftell _, s => (-1, s)
  | .sleep _, s => ((), s)
  | .get_osfhandle _, s => (-1, s)

/-- One scripted answer of the kernel model. -/
inductive Answer where
  | fail (err : Nat)
  | done
  | handle (h : Handle)
  | pipe (hRead hWrite : Handle)
  | read (r : ReadResult)
  | wrote (r : WriteResult)
  | peek (r : PeekResult)
  | file (f : FilePtr)
  | pos (n : Int)
  deriving DecidableEq

/-- A kernel with a handle table.  `opened` lists the handles that are open;
`script` lists the answers the kernel will give to the coming calls, so that
every pattern of successes and failures can be played. -/
structure Kernel where
  opened : List Handle
  script : List Answer
  lastError : Nat
  deriving DecidableEq

/-- A handle value the kernel may hand out: not the invalid sentinel and not
open already. -/
def Kernel.fresh (k : Kernel) (h : Handle) : Bool :=
  h != INVALID_HANDLE_VALUE && !k.opened.contains h

/-- The kernel after it has used up the head of its script, with the error
code of a failed call recorded. -/
def Kernel.failed (k : Kernel) (err : Nat) : Kernel :=
  { k with script := k.script.tail, lastError := err }

/-- The kernel creates an anonymous pipe: it succeeds when the script says so
with two handle values that are fresh and distinct, and the new handles enter
the table. -/
def Kernel.createPipe (k : Kernel) : Option (Handle × Handle) × Kernel :=
  match k.script with
  | .pipe r w :: rest =>
    if k.fresh r && k.fresh w && r != w then
      (some (r, w), { k with opened := k.opened ++ [r, w], script := rest })
    else (none, k.failed ERROR_INVALID_HANDLE)
  | .fail e :: _ => (none, k.failed e)
  | _ => (none, k.failed ERROR_INVALID_HANDLE)

/-- The kernel creates or opens one object: it succeeds when the script says so
with a fresh handle value, which enters the table; on failure the answer is
`INVALID_HANDLE_VALUE`. -/
def Kernel.createHandle (k : Kernel) : Handle × Kernel :=
  match k.script with
  | .handle h :: rest =>
    if k.fresh h then (h, { k with opened := k.opened ++ [h], script := rest })
    else (INVALID_HANDLE_VALUE, k.failed ERROR_INVALID_HANDLE)
  | .fail e :: _ => (INVALID_HANDLE_VALUE, k.failed e)
  | _ => (INVALID_HANDLE_VALUE, k.failed ERROR_INVALID_HANDLE)

/-- The kernel closes a handle: an open handle leaves the table, any other
value fails with `ERROR_INVALID_HANDLE`. -/
def Kernel.closeHandle (k : Kernel) (h : Handle) : Bool × Kernel :=
  if k.opened.contains h then (true, { k with opened := k.opened.erase h })
  else (false, { k with lastError := ERROR_INVALID_HANDLE })

/-- The kernel model as an operating system.  Handles are created and closed
as above; the remaining calls answer as scripted and leave the table alone. -/
def kernelSys : Sys Kernel
  | .CreatePipe, k => k.createPipe
  | .CreateNamedPipe _ _ _, k => k.createHandle
  | .CreateFile _, k => k.createHandle
  | .get_osfhandle _, k => k.createHandle
  | .CloseHandle h, k => k.closeHandle h
  | .GetLastError, k => (k.lastError, k)
  | .ConnectNamedPipe _, k =>
    match k.script with
    | .done :: rest => (true, { k with script := rest })
    | .fail e :: _ => (false, k.failed e)
    | _ => (false, k.failed ERROR_INVALID_HANDLE)
  | .ReadFile _ _, k =>
    match k.script with
    | .read r :: rest => (r, { k with script := rest })
    | .fail e :: _ => (⟨false, 0, []⟩, k.failed e)
    | _ => (⟨false, 0, []⟩, k.failed ERROR_INVALID_HANDLE)
  | .WriteFile _ _ _, k =>
    match k.script with
    | .wrote r :: rest => (r, { k with script := rest })
    | .fail e :: _ => (⟨false, 0⟩, k.failed e)
    | _ => (⟨false, 0⟩, k.failed ERROR_INVALID_HANDLE)
  | .PeekNamedPipe _, k =>
    match k.script with
    | .peek r :: rest => (r, { k with script := rest })
    | .fail e :: _ => (⟨false, 0⟩, k.failed e)
    | _ => (⟨false, 0⟩, k.failed ERROR_INVALID_HANDLE)
  | .CancelIo _, k => (true, k)
  | .fopen _, k =>
    match k.script with
    | .file f :: rest => (f, { k with script := rest })
    | .fail e :: _ => (NULL, k.failed e)
    | _ => (NULL, k.failed ERROR_INVALID_HANDLE)
  | .fclose _, k => (0, k)
  | .ftell _, k =>
    match k.script with
    | .pos n :: rest => (n, { k with script := rest })
    | _ => (-1, k.failed ERROR_INVALID_HANDLE)
  | .sleep _, k => ((), k)

/-! ## Test objects -/

/-- A `TNamedPipe` that is not open. -/
def closedNamedPipe : TNamedPipe := { pipeName_ := "test-pipe", hPipe_ := INVALID_HANDLE_VALUE }

/-- A `TPipe` as `TPipe(string)` constructs it: not open. -/
def closedPipe : TPipe :=
  TPipe.ofName ⟨"", NULL, 0, 0, 0, false⟩ "test-pipe"

/-- A `TNamedPipe` that holds handle `8`. -/
def openNamedPipe : TNamedPipe := { pipeName_ := "test-pipe", hPipe_ := 8 }

/-- A `TPipe` as `TPipe(int)` constructs it on handle `8`. -/
def openPipe : TPipe :=
  TPipe.ofHandle ⟨"", NULL, 0, 0, 0, false⟩ 8

/-- A kernel with handle `8` open and the given script. -/
def kernelWith (script : List Answer) : World Kernel :=
  { os := { opened := [8], script := script, lastError := 0 }, trace := [] }

/-! ## Callers and test objects for the stream property -/

/-- The caller of C3: successive `read` calls with the requested lengths
`lens`, until `need` bytes have been returned; the value is the concatenation
of what the calls returned. -/
def readUntil {σ : Type} (sys : Sys σ) (t : Transport) (cbRead0 : Nat) :
    Nat → List Nat → World σ → Except TTransportException (List Byte) × World σ
  | _, [], w => (.ok [], w)
  | need, l :: ls, w =>
    if need = 0 then (.ok [], w)
    else
      let o := t.read sys l cbRead0 w
      match o.result with
      | .error e => (.error e, o.world)
      | .ok (n, data) =>
        let rest := readUntil sys o.self cbRead0 (need - n) ls o.world
        match rest.1 with
        | .error e => (.error e, rest.2)
        | .ok bs => (.ok (data.take n ++ bs), rest.2)

/-- The two ends of the pipe are distinct handles, both open. -/
def Duplex.connected (d : Duplex) : Bool :=
  d.hA != d.hB && d.openA && d.openB

/-- A connected duplex pipe between handles `8` and `12`, both queues empty. -/
def testDuplex : World Duplex :=
  { os := { hA := 8, hB := 12, openA := true, openB := true, toA := [], toB := [],
            lastError := 0 },
    trace := [] }

/-- The duplex pipe after the holder of `hA` has closed its end. -/
def brokenDuplex : World Duplex :=
  { os := { hA := 8, hB := 12, openA := false, openB := true, toA := [], toB := [],
            lastError := 0 },
    trace := [] }

/-- A `TPipe` as `TPipe(int)` constructs it on handle `12`, end `B` of the
test pipes. -/
def pipeAtB : TPipe :=
  TPipe.ofHandle ⟨"", NULL, 0, 0, 0, false⟩ 12

/-! ## Test servers and the property of anonymous construction -/

/-- Storage of a `TPipeServer` before a constructor runs. -/
def rawServer : TPipeServer :=
  ⟨"", 0, 0, 0, 0, 0, 0, false⟩

/-- A kernel with no handle open that will create two pipes, with handles
`20`, `24` and `28`, `32`. -/
def twoPipesKernel : World Kernel :=
  { os := { opened := [], script := [.pipe 20 24, .pipe 28 32], lastError := 0 }, trace := [] }

/-- The anonymous server `TPipeServer(1024)` constructed on `twoPipesKernel`. -/
def anonServer : Outcome Unit TPipeServer Kernel :=
  TPipeServer.anon1 kernelSys rawServer 1024 twoPipesKernel

/-- The named server `TPipeServer("test-pipe", 4096, 2)`. -/
def namedServer : TPipeServer :=
  TPipeServer.named3 rawServer "test-pipe" 4096 2

/-- A kernel with no handle open that will create a pipe instance with handle
`20` and connect a client to it. -/
def acceptKernel : World Kernel :=
  { os := { opened := [], script := [.handle 20, .done], lastError := 0 }, trace := [] }

/-- One successful `acceptImpl()` of the named server on `acceptKernel`. -/
def accepted : Outcome TPipe TPipeServer Kernel :=
  namedServer.acceptImpl kernelSys closedPipe acceptKernel


/-- The all-or-nothing property of C10 for the outcome `o` of a construction
started in world `w`, read off the answers of the kernel to the two
`CreatePipe` calls: the first creates the client-read and server-write
handles, the second the server-read and client-write handles. -/
def AllOrNothing (w : World Kernel) (o : Outcome Unit TPipeServer Kernel) : Prop :=
  match (kernelSys .CreatePipe w.os).1 with
  | none =>
    (∃ msg, o.result = .error ⟨.NOT_OPEN, msg⟩) ∧ o.world.os.opened = w.os.opened
  | some (cr, sw) =>
    match (kernelSys .CreatePipe (kernelSys .CreatePipe w.os).2).1 with
    | none =>
      (∃ msg, o.result = .error ⟨.NOT_OPEN, msg⟩) ∧ o.world.os.opened = w.os.opened ∧
      (o.world.trace.filter Call.isClose) = (w.trace.filter Call.isClose)
        ++ [.CloseHandle cr, .CloseHandle sw]
    | some (sr, cw) =>
      o.result = .ok () ∧
      o.self.ClientAnonRead = cr ∧ o.self.PipeW_ = sw ∧
      o.self.Pipe_ = sr ∧ o.self.ClientAnonWrite = cw ∧
      [sr, sw, cr, cw].Nodup ∧
      (∀ h ∈ [sr, sw, cr, cw], h ≠ INVALID_HANDLE_VALUE ∧ h ∉ w.os.opened) ∧
      o.world.os.opened = w.os.opened ++ [cr, sw, sr, cw]

/-! ## Helpers for the statements about `open()` -/

/-- Whether a call is an OS open call. -/
def Call.isOpenCall : Call → Bool
  | .fopen _ => true
  | .CreateFile _ => true
  | _ => false

/-- Whether a call is a wait. -/
def Call.isSleep : Call → Bool
  | .sleep _ => true
  | _ => false

/-- The calls of `k` failed attempts of `TPipe::open`: each is an `fopen`
followed by `sleep(500)`. -/
def failedRounds (pipename : String) : Nat → List Call
  | 0 => []
  | k + 1 => .fopen pipename :: .sleep 500 :: failedRounds pipename k

/-- The operating system after `k` attempts of `TPipe::open`, each an `fopen`
followed by `sleep(500)`. -/
def afterRounds {σ : Type} (sys : Sys σ) (pipename : String) : Nat → σ → σ
  | 0, os => os
  | k + 1, os => afterRounds sys pipename k (sys (.sleep 500) (sys (.fopen pipename) os).2).2

/-- The answer of the operating system to attempt number `j` (from `0`) of
`TPipe::open`, when the attempts before it were each followed by the wait. -/
def attemptAnswer {σ : Type} (sys : Sys σ) (pipename : String) (j : Nat) (os : σ) : FilePtr :=
  (sys (.fopen pipename) (afterRounds sys pipename j os)).1

/-- The retry budget of the spec for a timeout of `T` seconds:
`T * 1000 / 500` attempts. -/
def retryBudget (T : Int) : Nat :=
  (T * 1000 / 500).toNat

/-- A closed `TPipe` as `TPipe(FILE*)` constructs it on stream `5`, with the
connect timeout set to `0`. -/
def streamPipe : TPipe :=
  (TPipe.ofFile ⟨"", NULL, 0, 0, 0, false⟩ 5).setConnectTimeout 0

/-- A kernel on which every one of the coming `n` open attempts finds the pipe
busy. -/
def busyKernel (n : Nat) : World Kernel :=
  kernelWith (List.replicate n (.fail ERROR_PIPE_BUSY))

/-- Win32 error code `ERROR_FILE_NOT_FOUND`. -/
def ERROR_FILE_NOT_FOUND : Nat := 2

/-- Storage of a `TPipe` before a constructor runs, filled with the byte `0xCD`
as an MSVC debug allocation is: the stream member is `0xCDCDCDCD`. -/
def rawPipe : TPipe :=
  ⟨"", 3452816845, 0, 0, 0, false⟩

/-- A kernel with no handle open that will create two pipes, with handles
`20`, `24` and `28`, `32`, and then complete the zero-length read of the
anonymous accept. -/
def anonAcceptKernel : World Kernel :=
  { os := { opened := [], script := [.pipe 20 24, .pipe 28 32, .read ⟨true, 0, []⟩],
            lastError := 0 },
    trace := [] }

/-- The anonymous server `TPipeServer(1024)` constructed on `anonAcceptKernel`,
then one `acceptImpl()` on it; the new `TPipe` is built in `rawPipe`. -/
def anonAccepted : Outcome TPipe TPipeServer Kernel :=
  (TPipeServer.anon1 kernelSys rawServer 1024 anonAcceptKernel).self.acceptImpl kernelSys rawPipe
    (TPipeServer.anon1 kernelSys rawServer 1024 anonAcceptKernel).world

/-! ## Closed transports -/

/-- C1: on a transport of either class whose `isOpen()` is false, `read` and
`write` throw a `NOT_OPEN` transport exception for every buffer and length;
the world is unchanged, so no call at all reaches the operating system, and
the object is unchanged. -/
theorem closed_read_write_not_open {σ : Type} (sys : Sys σ) (t : Transport)
    (buf : List Byte) (len cbRead0 : Nat) (w : World σ) (hclosed : t.isOpen = false) :
    ((∃ msg, (t.read sys len cbRead0 w).result = .error ⟨.NOT_OPEN, msg⟩) ∧
      (t.read sys len cbRead0 w).world = w ∧ (t.read sys len cbRead0 w).self = t) ∧
    ((∃ msg, (t.write sys buf len w).result = .error ⟨.NOT_OPEN, msg⟩) ∧
      (t.write sys buf len w).world = w ∧ (t.write sys buf len w).self = t) := by
  cases t with
  | namedPipe t =>
    have h : t.isOpen = false := hclosed
    simp [Transport.read, Transport.write, TNamedPipe.read, TNamedPipe.write, Outcome.lift, h]
  | pipe t =>
    have h : t.isOpen = false := hclosed
    simp [Transport.read, Transport.write, TPipe.read, TPipe.write, Outcome.lift, h]

/-- Witness for C1: the closed `TPipe` and the closed `TNamedPipe` on the kernel
model. -/
theorem closed_read_write_not_open_witness :
    (Transport.pipe closedPipe).isOpen = false ∧
    (∃ msg, ((Transport.pipe closedPipe).read kernelSys 4 0 (kernelWith [])).result
      = .error ⟨.NOT_OPEN, msg⟩) ∧
    ((Transport.namedPipe closedNamedPipe).write kernelSys [1, 2] 2 (kernelWith [])).world
      = kernelWith [] :=
  ⟨by decide,
   (closed_read_write_not_open kernelSys (.pipe closedPipe) [] 4 0 (kernelWith [])
      (by decide)).1.1,
   (closed_read_write_not_open kernelSys (.namedPipe closedNamedPipe) [1, 2] 2 0 (kernelWith [])
      (by decide)).2.2.1⟩

/-- C2, as stated, fails: `peek` on the closed `TPipe` returns `false`; it does
not throw. -/
theorem closed_pipe_peek_returns :
    (Transport.pipe closedPipe).isOpen = false ∧
    ((Transport.pipe closedPipe).peek kernelSys true (kernelWith [])).result = .ok false ∧
    ¬ ∃ e, ((Transport.pipe closedPipe).peek kernelSys true (kernelWith [])).result
      = .error e := by
  refine ⟨by decide, rfl, ?_⟩
  rintro ⟨e, he⟩
  have h : ((Transport.pipe closedPipe).peek kernelSys true (kernelWith [])).result
      = .ok false := rfl
  rw [h] at he
  cases he

/-- C2, amended: on a transport whose `isOpen()` is false, `peek` reaches the
operating system with no call and leaves the object unchanged; a `TNamedPipe`
throws a `NOT_OPEN` transport exception, a `TPipe` returns `false`. -/
theorem closed_peek {σ : Type} (sys : Sys σ) (t : Transport) (undef : Bool) (w : World σ)
    (hclosed : t.isOpen = false) :
    (t.peek sys undef w).world = w ∧ (t.peek sys undef w).self = t ∧
    (match t with
     | .namedPipe _ => ∃ msg, (t.peek sys undef w).result = .error ⟨.NOT_OPEN, msg⟩
     | .pipe _ => (t.peek sys undef w).result = .ok false) := by
  cases t with
  | namedPipe t =>
    have h : t.isOpen = false := hclosed
    simp [Transport.peek, TNamedPipe.peek, Outcome.lift, h]
  | pipe t =>
    have h : t.isOpen = false := hclosed
    simp [Transport.peek, TPipe.peek, Outcome.lift, h]

/-- Witness for the amended C2: the closed `TNamedPipe` on the kernel model. -/
theorem closed_peek_witness :
    (Transport.namedPipe closedNamedPipe).isOpen = false ∧
    ((Transport.namedPipe closedNamedPipe).peek kernelSys false (kernelWith [])).world
      = kernelWith [] ∧
    ∃ msg, ((Transport.namedPipe closedNamedPipe).peek kernelSys false (kernelWith [])).result
      = .error ⟨.NOT_OPEN, msg⟩ :=
  ⟨by decide,
   (closed_peek kernelSys (.namedPipe closedNamedPipe) false (kernelWith []) (by decide)).1,
   (closed_peek kernelSys (.namedPipe closedNamedPipe) false (kernelWith []) (by decide)).2.2⟩

/-! ## Byte-stream fidelity over the duplex pipe -/

/-- If every `read` on a non-empty queue returns its front and leaves the rest,
enough successive reads return the whole queue, in order. -/
theorem readUntil_drains {σ : Type} (sys : Sys σ) (t : Transport) (c : Nat)
    (Q : World σ → List Byte) (P : World σ → Prop)
    (step : ∀ w l, P w → Q w ≠ [] → 0 < l →
      ∃ w1, t.read sys l c w = ⟨.ok (min l (Q w).length, (Q w).take l), t, w1⟩ ∧
        Q w1 = (Q w).drop l ∧ P w1) :
    ∀ (lens : List Nat) (w : World σ), P w → (∀ l ∈ lens, 0 < l) →
      (Q w).length ≤ lens.length →
      ∃ w1, readUntil sys t c (Q w).length lens w = (.ok (Q w), w1) ∧ Q w1 = [] ∧ P w1 := by
  intro lens
  induction lens with
  | nil =>
    intro w hP _ hlen
    have hq : Q w = [] := List.length_eq_zero.mp (Nat.le_zero.mp hlen)
    exact ⟨w, by simp [readUntil, hq], hq, hP⟩
  | cons l ls ih =>
    intro w hP hpos hlen
    by_cases hq : Q w = []
    · exact ⟨w, by simp [readUntil, hq], hq, hP⟩
    · have hl : 0 < l := hpos l (List.mem_cons_self l ls)
      obtain ⟨w1, hread, hQ1, hP1⟩ := step w l hP hq hl
      have hqpos : 0 < (Q w).length := List.length_pos.mpr hq
      have hlen1 : (Q w1).length ≤ ls.length := by
        rw [hQ1, List.length_drop]
        simp only [List.length_cons] at hlen
        omega
      obtain ⟨w2, hrest, hQ2, hP2⟩ :=
        ih w1 hP1 (fun x hx => hpos x (List.mem_cons_of_mem l hx)) hlen1
      have hneed : (Q w).length - min l (Q w).length = (Q w1).length := by
        rw [hQ1, List.length_drop]; omega
      refine ⟨w2, ?_, hQ2, hP2⟩
      have hne : (Q w).length ≠ 0 := by omega
      rw [readUntil]
      simp only [hne, if_false, hread, hneed, hrest]
      have htake : List.take (min l (Q w).length) (List.take l (Q w)) = List.take l (Q w) := by
        apply List.take_of_length_le
        simp
      simp [htake, hQ1]


/-- One `read` on the transport at end `B` of the duplex pipe. -/
theorem duplex_read_at_B (b : Transport) (c l : Nat) (w : World Duplex)
    (hb : b.isOpen = true) (hbr : b.readHandle = w.os.hB) (hne : w.os.hA ≠ w.os.hB)
    (hoA : w.os.openA = true) (hoB : w.os.openB = true) :
    b.read duplexSys l c w =
      ⟨.ok (min l w.os.toB.length, w.os.toB.take l), b,
       ⟨{ w.os with toB := w.os.toB.drop l }, w.trace ++ [.ReadFile w.os.hB l]⟩⟩ := by
  have hne2 : ¬ w.os.hB = w.os.hA := fun h => hne h.symm
  cases b with
  | namedPipe t =>
    have h1 : t.isOpen = true := hb
    have h2 : t.hPipe_ = w.os.hB := hbr
    simp [Transport.read, TNamedPipe.read, Outcome.lift, sysCall, duplexSys, h1, h2, hne2,
      hoA, hoB]
  | pipe t =>
    have h1 : t.isOpen = true := hb
    have h2 : t.hPipe_ = w.os.hB := hbr
    have h3 : (w.os.hB != -1) = true := by
      have := h1; simp only [TPipe.isOpen, h2] at this; exact this
    simp [Transport.read, TPipe.read, TPipe.fread, Outcome.lift, sysCall, duplexSys, h1, h2,
      h3, hne2, hoA, hoB]

/-- One `write` on the transport at end `A` of the duplex pipe. -/
theorem duplex_write_at_A (a : Transport) (buf : List Byte) (len : Nat) (w : World Duplex)
    (ha : a.isOpen = true) (haw : a.writeHandle = w.os.hA)
    (hoA : w.os.openA = true) (hoB : w.os.openB = true) :
    a.write duplexSys buf len w =
      ⟨.ok (), a,
       ⟨{ w.os with toB := w.os.toB ++ buf.take len },
        w.trace ++ [.WriteFile w.os.hA buf len]⟩⟩ := by
  cases a with
  | namedPipe t =>
    have h1 : t.isOpen = true := ha
    have h2 : t.hPipe_ = w.os.hA := haw
    simp [Transport.write, TNamedPipe.write, Outcome.lift, sysCall, duplexSys, h1, h2,
      hoA, hoB]
  | pipe t =>
    have h1 : t.isOpen = true := ha
    have h2 : (if t.isAnonymous then t.hPipeWrt_ else t.hPipe_) = w.os.hA := haw
    simp [Transport.write, TPipe.write, TPipe.fwrite, Outcome.lift, sysCall, duplexSys, h1, h2,
      hoA, hoB]


/-- One `read` on the transport at end `A` of the duplex pipe. -/
theorem duplex_read_at_A (a : Transport) (c l : Nat) (w : World Duplex)
    (ha : a.isOpen = true) (har : a.readHandle = w.os.hA)
    (hoA : w.os.openA = true) (hoB : w.os.openB = true) :
    a.read duplexSys l c w =
      ⟨.ok (min l w.os.toA.length, w.os.toA.take l), a,
       ⟨{ w.os with toA := w.os.toA.drop l }, w.trace ++ [.ReadFile w.os.hA l]⟩⟩ := by
  cases a with
  | namedPipe t =>
    have h1 : t.isOpen = true := ha
    have h2 : t.hPipe_ = w.os.hA := har
    simp [Transport.read, TNamedPipe.read, Outcome.lift, sysCall, duplexSys, h1, h2, hoA, hoB]
  | pipe t =>
    have h1 : t.isOpen = true := ha
    have h2 : t.hPipe_ = w.os.hA := har
    have h3 : (w.os.hA != -1) = true := by
      have := h1; simp only [TPipe.isOpen, h2] at this; exact this
    simp [Transport.read, TPipe.read, TPipe.fread, Outcome.lift, sysCall, duplexSys, h1, h2,
      h3, hoA, hoB]

/-- One `write` on the transport at end `B` of the duplex pipe. -/
theorem duplex_write_at_B (b : Transport) (buf : List Byte) (len : Nat) (w : World Duplex)
    (hb : b.isOpen = true) (hbw : b.writeHandle = w.os.hB) (hne : w.os.hA ≠ w.os.hB)
    (hoA : w.os.openA = true) (hoB : w.os.openB = true) :
    b.write duplexSys buf len w =
      ⟨.ok (), b,
       ⟨{ w.os with toA := w.os.toA ++ buf.take len },
        w.trace ++ [.WriteFile w.os.hB buf len]⟩⟩ := by
  have hne2 : ¬ w.os.hB = w.os.hA := fun h => hne h.symm
  cases b with
  | namedPipe t =>
    have h1 : t.isOpen = true := hb
    have h2 : t.hPipe_ = w.os.hB := hbw
    simp [Transport.write, TNamedPipe.write, Outcome.lift, sysCall, duplexSys, h1, h2, hne2,
      hoA, hoB]
  | pipe t =>
    have h1 : t.isOpen = true := hb
    have h2 : (if t.isAnonymous then t.hPipeWrt_ else t.hPipe_) = w.os.hB := hbw
    simp [Transport.write, TPipe.write, TPipe.fwrite, Outcome.lift, sysCall, duplexSys, h1, h2,
      hne2, hoA, hoB]

/-- What `connected` says. -/
theorem duplex_connected_iff (d : Duplex) :
    d.connected = true ↔ d.hA ≠ d.hB ∧ d.openA = true ∧ d.openB = true := by
  simp [Duplex.connected, and_assoc]

/-- Successive reads at end `B` return the queue `toB`. -/
theorem drain_at_B (b : Transport) (c : Nat) (hb : b.isOpen = true) (h : Handle)
    (hbr : b.readHandle = h) (lens : List Nat) (w : World Duplex)
    (hw : w.os.hB = h ∧ w.os.connected = true) (hpos : ∀ l ∈ lens, 0 < l)
    (hlen : w.os.toB.length ≤ lens.length) :
    ∃ w1, readUntil duplexSys b c w.os.toB.length lens w = (.ok w.os.toB, w1) ∧
      w1.os.toB = [] ∧ (w1.os.hB = h ∧ w1.os.connected = true) := by
  refine readUntil_drains duplexSys b c (fun w => w.os.toB)
    (fun w => w.os.hB = h ∧ w.os.connected = true) ?_ lens w hw hpos hlen
  intro w l hP _ _
  obtain ⟨h1, hc⟩ := hP
  obtain ⟨h2, h3, h4⟩ := (duplex_connected_iff _).mp hc
  exact ⟨_, duplex_read_at_B b c l w hb (hbr.trans h1.symm) h2 h3 h4, rfl, h1, hc⟩

/-- Successive reads at end `A` return the queue `toA`. -/
theorem drain_at_A (a : Transport) (c : Nat) (ha : a.isOpen = true) (h : Handle)
    (har : a.readHandle = h) (lens : List Nat) (w : World Duplex)
    (hw : w.os.hA = h ∧ w.os.connected = true) (hpos : ∀ l ∈ lens, 0 < l)
    (hlen : w.os.toA.length ≤ lens.length) :
    ∃ w1, readUntil duplexSys a c w.os.toA.length lens w = (.ok w.os.toA, w1) ∧
      w1.os.toA = [] ∧ (w1.os.hA = h ∧ w1.os.connected = true) := by
  refine readUntil_drains duplexSys a c (fun w => w.os.toA)
    (fun w => w.os.hA = h ∧ w.os.connected = true) ?_ lens w hw hpos hlen
  intro w l hP _ _
  obtain ⟨h1, hc⟩ := hP
  obtain ⟨h2, h3, h4⟩ := (duplex_connected_iff _).mp hc
  exact ⟨_, duplex_read_at_A a c l w ha (har.trans h1.symm) h3 h4, rfl, h1, hc⟩

/-- C3: over the duplex pipe (one FIFO byte queue per direction, both queues
empty) with an open transport of either class at each end, for every byte
sequence `data`: `write(data, len(data))` at one end succeeds, and the
concatenation of what successive `read` calls at the other end return, each
with a requested length above zero, until `len(data)` bytes have been
returned, is `data`; the queue is empty afterwards.  At most `len(data)` reads
are needed, so any list `lens` of at least that many lengths suffices.  Both
directions are covered. -/
theorem duplex_stream_fidelity (a b : Transport) (w : World Duplex) (data : List Byte)
    (lens : List Nat) (c : Nat)
    (ha : a.isOpen = true) (hb : b.isOpen = true)
    (har : a.readHandle = w.os.hA) (haw : a.writeHandle = w.os.hA)
    (hbr : b.readHandle = w.os.hB) (hbw : b.writeHandle = w.os.hB)
    (hconn : w.os.connected = true) (hA : w.os.toA = []) (hB : w.os.toB = [])
    (hpos : ∀ l ∈ lens, 0 < l) (hlen : data.length ≤ lens.length) :
    ((a.write duplexSys data data.length w).result = .ok () ∧
      (readUntil duplexSys b c data.length lens
        (a.write duplexSys data data.length w).world).1 = .ok data ∧
      (readUntil duplexSys b c data.length lens
        (a.write duplexSys data data.length w).world).2.os.toB = []) ∧
    ((b.write duplexSys data data.length w).result = .ok () ∧
      (readUntil duplexSys a c data.length lens
        (b.write duplexSys data data.length w).world).1 = .ok data ∧
      (readUntil duplexSys a c data.length lens
        (b.write duplexSys data data.length w).world).2.os.toA = []) := by
  obtain ⟨h1, h2, h3⟩ := (duplex_connected_iff _).mp hconn
  constructor
  · rw [duplex_write_at_A a data data.length w ha haw h2 h3]
    obtain ⟨w1, hr, hq, _⟩ := drain_at_B b c hb w.os.hB hbr lens
      ⟨{ w.os with toB := w.os.toB ++ data.take data.length },
        w.trace ++ [.WriteFile w.os.hA data data.length]⟩
      ⟨rfl, hconn⟩ hpos (by simpa [hB] using hlen)
    simp only [hB, List.nil_append, List.take_length] at hr
    simp only [hB, List.nil_append, List.take_length]
    rw [hr]
    exact ⟨trivial, rfl, hq⟩
  · rw [duplex_write_at_B b data data.length w hb hbw h1 h2 h3]
    obtain ⟨w1, hr, hq, _⟩ := drain_at_A a c ha w.os.hA har lens
      ⟨{ w.os with toA := w.os.toA ++ data.take data.length },
        w.trace ++ [.WriteFile w.os.hB data data.length]⟩
      ⟨rfl, hconn⟩ hpos (by simpa [hA] using hlen)
    simp only [hA, List.nil_append, List.take_length] at hr
    simp only [hA, List.nil_append, List.take_length]
    rw [hr]
    exact ⟨trivial, rfl, hq⟩

/-- Witness for C3: a `TNamedPipe` writes three bytes at end `A`, a `TPipe` reads
them at end `B` in two calls. -/
theorem duplex_stream_fidelity_witness :
    (readUntil duplexSys (.pipe pipeAtB) 0 3 [2, 5, 1]
        ((Transport.namedPipe openNamedPipe).write duplexSys [1, 2, 3] 3 testDuplex).world).1
      = .ok [1, 2, 3] :=
  (duplex_stream_fidelity (.namedPipe openNamedPipe) (.pipe pipeAtB)
    testDuplex [1, 2, 3] [2, 5, 1] 0 (by decide) (by decide) (by decide) (by decide)
    (by decide) (by decide) (by decide) (by decide) (by decide) (by decide) (by decide)).1.2.1

/-! ## Reading from an open transport -/

/-- What `TPipe::read` does on an open pipe, in terms of the answers of the
operating system. -/
theorem pipe_read_open {σ : Type} (sys : Sys σ) (t : TPipe) (len c : Nat) (w : World σ)
    (h : t.isOpen = true) :
    t.read sys len c w =
      if (sys (.ReadFile t.hPipe_ len) w.os).1.fSuccess = true then
        ⟨.ok ((sys (.ReadFile t.hPipe_ len) w.os).1.cbRead,
              (sys (.ReadFile t.hPipe_ len) w.os).1.data), t,
         ⟨(sys (.ReadFile t.hPipe_ len) w.os).2, w.trace ++ [.ReadFile t.hPipe_ len]⟩⟩
      else
        ⟨.ok (if (sys .GetLastError (sys (.ReadFile t.hPipe_ len) w.os).2).1 = ERROR_MORE_DATA
                then (sys (.ReadFile t.hPipe_ len) w.os).1.cbRead else 0,
              (sys (.ReadFile t.hPipe_ len) w.os).1.data), t,
         ⟨(sys .GetLastError (sys (.ReadFile t.hPipe_ len) w.os).2).2,
          w.trace ++ [.ReadFile t.hPipe_ len, .GetLastError]⟩⟩ := by
  have h2 : (t.hPipe_ != -1) = true := h
  unfold TPipe.read TPipe.fread sysCall
  rw [Nat.mul_one]
  cases hs : (sys (.ReadFile t.hPipe_ len) w.os).1.fSuccess
  · by_cases he : (sys .GetLastError (sys (.ReadFile t.hPipe_ len) w.os).2).1 = ERROR_MORE_DATA
    · simp [h, h2, hs, he]
    · simp [h, h2, hs, he]
  · simp [h, h2, hs]

/-- What `TNamedPipe::read` does on an open pipe, in terms of the answer of the
operating system. -/
theorem named_pipe_read_open {σ : Type} (sys : Sys σ) (t : TNamedPipe) (len : Nat)
    (w : World σ) (h : t.isOpen = true) :
    t.read sys len w =
      if (sys (.ReadFile t.hPipe_ len) w.os).1.fSuccess = true then
        ⟨.ok ((sys (.ReadFile t.hPipe_ len) w.os).1.cbRead,
              (sys (.ReadFile t.hPipe_ len) w.os).1.data), t,
         ⟨(sys (.ReadFile t.hPipe_ len) w.os).2, w.trace ++ [.ReadFile t.hPipe_ len]⟩⟩
      else
        ⟨.error ⟨.UNKNOWN, "Read not successful"⟩, t,
         ⟨(sys (.ReadFile t.hPipe_ len) w.os).2, w.trace ++ [.ReadFile t.hPipe_ len]⟩⟩ := by
  unfold TNamedPipe.read sysCall
  cases hs : (sys (.ReadFile t.hPipe_ len) w.os).1.fSuccess <;> simp [h, hs]

/-- C4: on an open transport of either class, for every `maxLen`, `read(buf,
maxLen)` issues exactly one OS read call, a `ReadFile` that requests `maxLen`
bytes, and a value it returns is at most `maxLen` and is the byte count that
call reported.  The operating system is arbitrary but for two properties of
`ReadFile` under Win32: it reports no more bytes than were requested
(`hbound`), and, for the equality, it reports zero bytes when it fails with an
error other than `ERROR_MORE_DATA`, because it zeroes the count before any
work. -/
theorem read_issues_one_os_read {σ : Type} (sys : Sys σ) (t : Transport)
    (maxLen cbRead0 : Nat) (w : World σ) (hopen : t.isOpen = true)
    (hbound : (sys (.ReadFile t.readHandle maxLen) w.os).1.cbRead ≤ maxLen) :
    (∃ rest, (t.read sys maxLen cbRead0 w).world.trace
        = w.trace ++ Call.ReadFile t.readHandle maxLen :: rest ∧
      rest.filter Call.isRead = []) ∧
    (∀ n data, (t.read sys maxLen cbRead0 w).result = .ok (n, data) →
      n ≤ maxLen ∧
      (((sys (.ReadFile t.readHandle maxLen) w.os).1.fSuccess = false →
          (sys .GetLastError (sys (.ReadFile t.readHandle maxLen) w.os).2).1
            ≠ ERROR_MORE_DATA →
          (sys (.ReadFile t.readHandle maxLen) w.os).1.cbRead = 0) →
        n = (sys (.ReadFile t.readHandle maxLen) w.os).1.cbRead)) := by
  cases t with
  | namedPipe t =>
    have h : t.isOpen = true := hopen
    simp only [Transport.readHandle] at hbound ⊢
    simp only [Transport.read, Outcome.lift, named_pipe_read_open sys t maxLen w h]
    cases hs : (sys (.ReadFile t.hPipe_ maxLen) w.os).1.fSuccess
    · refine ⟨⟨[], by simp, rfl⟩, ?_⟩
      intro n data hn
      simp at hn
    · refine ⟨⟨[], by simp, rfl⟩, ?_⟩
      intro n data hn
      simp at hn
      exact ⟨hn.1 ▸ hbound, fun _ => hn.1.symm⟩
  | pipe t =>
    have h : t.isOpen = true := hopen
    simp only [Transport.readHandle] at hbound ⊢
    simp only [Transport.read, Outcome.lift, pipe_read_open sys t maxLen cbRead0 w h]
    cases hs : (sys (.ReadFile t.hPipe_ maxLen) w.os).1.fSuccess
    · refine ⟨⟨[.GetLastError], by simp, rfl⟩, ?_⟩
      intro n data hn
      by_cases he : (sys .GetLastError (sys (.ReadFile t.hPipe_ maxLen) w.os).2).1
          = ERROR_MORE_DATA
      · simp [he] at hn
        exact ⟨hn.1 ▸ hbound, fun _ => hn.1.symm⟩
      · simp [he] at hn
        refine ⟨by omega, fun hzero => ?_⟩
        rw [hzero rfl he]
        exact hn.1.symm
    · refine ⟨⟨[], by simp, rfl⟩, ?_⟩
      intro n data hn
      simp at hn
      exact ⟨hn.1 ▸ hbound, fun _ => hn.1.symm⟩

/-- Witness for C4: the open `TPipe` reads with `maxLen = 4` from a kernel that
delivers three bytes. -/
theorem read_issues_one_os_read_witness :
    ((Transport.pipe openPipe).read kernelSys 4 0
        (kernelWith [.read ⟨true, 3, [1, 2, 3]⟩])).world.trace = [Call.ReadFile 8 4] ∧
    ((Transport.pipe openPipe).read kernelSys 4 0
        (kernelWith [.read ⟨true, 3, [1, 2, 3]⟩])).result = .ok (3, [1, 2, 3]) ∧
    3 ≤ 4 ∧
    3 = (kernelSys (.ReadFile 8 4) (kernelWith [.read ⟨true, 3, [1, 2, 3]⟩]).os).1.cbRead :=
  ⟨by decide, rfl,
   ((read_issues_one_os_read kernelSys (.pipe openPipe) 4 0
      (kernelWith [.read ⟨true, 3, [1, 2, 3]⟩]) (by decide) (by decide)).2
      3 [1, 2, 3] rfl).1,
   ((read_issues_one_os_read kernelSys (.pipe openPipe) 4 0
      (kernelWith [.read ⟨true, 3, [1, 2, 3]⟩]) (by decide) (by decide)).2
      3 [1, 2, 3] rfl).2 (by decide)⟩

/-! ## Short writes -/

/-- What `TNamedPipe::write` does on an open pipe, in terms of the answer of
the operating system. -/
theorem named_pipe_write_open {σ : Type} (sys : Sys σ) (t : TNamedPipe) (buf : List Byte)
    (len : Nat) (w : World σ) (h : t.isOpen = true) :
    t.write sys buf len w =
      ⟨if (sys (.WriteFile t.hPipe_ buf len) w.os).1.fSuccess = true then .ok ()
        else .error ⟨.UNKNOWN, "Write not successful"⟩, t,
       ⟨(sys (.WriteFile t.hPipe_ buf len) w.os).2, w.trace ++ [.WriteFile t.hPipe_ buf len]⟩⟩ := by
  unfold TNamedPipe.write sysCall
  cases hs : (sys (.WriteFile t.hPipe_ buf len) w.os).1.fSuccess <;> simp [h, hs]

/-- On an open `TPipe`, a `WriteFile` that reports success with fewer bytes
than requested makes `write` throw `NOT_OPEN`; the only calls issued are that
`WriteFile` and a `GetLastError`. -/
theorem pipe_write_short {σ : Type} (sys : Sys σ) (t : TPipe) (buf : List Byte)
    (len : Nat) (w : World σ) (h : t.isOpen = true)
    (hok : (sys (.WriteFile (Transport.pipe t).writeHandle buf len) w.os).1.fSuccess = true)
    (hshort : (sys (.WriteFile (Transport.pipe t).writeHandle buf len) w.os).1.cbWritten < len) :
    (t.write sys buf len w).result = .error ⟨.NOT_OPEN, "Write to pipe failed"⟩ ∧
    (t.write sys buf len w).world.trace
      = w.trace ++ [.WriteFile (Transport.pipe t).writeHandle buf len, .GetLastError] := by
  simp only [Transport.writeHandle] at hok hshort ⊢
  unfold TPipe.write TPipe.fwrite sysCall
  rw [Nat.one_mul]
  simp [h, hok, hshort]

/-- C5 fails on `TNamedPipe`: the pipe is open, `WriteFile` reports success with
two of the four bytes written, and `write` returns normally. -/
theorem named_pipe_short_write_returns :
    (Transport.namedPipe openNamedPipe).isOpen = true ∧
    (kernelSys (.WriteFile 8 [1, 2, 3, 4] 4) (kernelWith [.wrote ⟨true, 2⟩]).os).1
      = ⟨true, 2⟩ ∧
    ((Transport.namedPipe openNamedPipe).write kernelSys [1, 2, 3, 4] 4
        (kernelWith [.wrote ⟨true, 2⟩])).result = .ok () ∧
    ((Transport.namedPipe openNamedPipe).write kernelSys [1, 2, 3, 4] 4
        (kernelWith [.wrote ⟨true, 2⟩])).world.trace = [Call.WriteFile 8 [1, 2, 3, 4] 4] :=
  ⟨by decide, rfl, rfl, by decide⟩

/-- The same short write on the open `TPipe` throws `NOT_OPEN`. -/
theorem pipe_short_write_throws :
    ((Transport.pipe openPipe).write kernelSys [1, 2, 3, 4] 4
        (kernelWith [.wrote ⟨true, 2⟩])).result
      = .error ⟨.NOT_OPEN, "Write to pipe failed"⟩ :=
  rfl

/-! ## A failed OS read -/

/-- C6, as stated, fails on `TPipe`: the pipe is open, the peer has closed, the
`ReadFile` issued by `read` fails with `ERROR_BROKEN_PIPE`, and `read` returns
the byte count `0`; it does not throw. -/
theorem pipe_read_failure_returns_zero :
    (Transport.pipe pipeAtB).isOpen = true ∧
    (duplexSys (.ReadFile 12 4) brokenDuplex.os).1.fSuccess = false ∧
    ((Transport.pipe pipeAtB).read duplexSys 4 0 brokenDuplex).result = .ok (0, []) :=
  ⟨by decide, rfl, rfl⟩

/-- C6, amended: on an open transport whose `ReadFile` reports failure, a
`TNamedPipe` throws an `UNKNOWN` transport exception; a `TPipe` does not throw:
it returns `0`, or the count the call reported when `GetLastError()` is
`ERROR_MORE_DATA`.  The object is unchanged in both classes. -/
theorem read_on_os_failure {σ : Type} (sys : Sys σ) (t : Transport) (len cbRead0 : Nat)
    (w : World σ) (hopen : t.isOpen = true)
    (hfail : (sys (.ReadFile t.readHandle len) w.os).1.fSuccess = false) :
    (t.read sys len cbRead0 w).self = t ∧
    (match t with
     | .namedPipe _ =>
       (t.read sys len cbRead0 w).result = .error ⟨.UNKNOWN, "Read not successful"⟩
     | .pipe _ =>
       (t.read sys len cbRead0 w).result =
         .ok (if (sys .GetLastError (sys (.ReadFile t.readHandle len) w.os).2).1
                  = ERROR_MORE_DATA
              then (sys (.ReadFile t.readHandle len) w.os).1.cbRead else 0,
              (sys (.ReadFile t.readHandle len) w.os).1.data)) := by
  cases t with
  | namedPipe t =>
    have h : t.isOpen = true := hopen
    simp only [Transport.readHandle] at hfail ⊢
    simp [Transport.read, Outcome.lift, named_pipe_read_open sys t len w h, hfail]
  | pipe t =>
    have h : t.isOpen = true := hopen
    simp only [Transport.readHandle] at hfail ⊢
    simp [Transport.read, Outcome.lift, pipe_read_open sys t len cbRead0 w h, hfail]

/-- Witness for the amended C6: the open `TNamedPipe` on a kernel whose
`ReadFile` fails with `ERROR_BROKEN_PIPE`. -/
theorem read_on_os_failure_witness :
    (Transport.namedPipe openNamedPipe).isOpen = true ∧
    (kernelSys (.ReadFile 8 4) (kernelWith [.fail ERROR_BROKEN_PIPE]).os).1.fSuccess = false ∧
    ((Transport.namedPipe openNamedPipe).read kernelSys 4 0
        (kernelWith [.fail ERROR_BROKEN_PIPE])).result
      = .error ⟨.UNKNOWN, "Read not successful"⟩ :=
  ⟨by decide, rfl,
   (read_on_os_failure kernelSys (.namedPipe openNamedPipe) 4 0
      (kernelWith [.fail ERROR_BROKEN_PIPE]) (by decide) rfl).2⟩

/-! ## Closing a transport -/

/-- Whenever the first `close()` returns, `isOpen()` is false and a second
`close()` is a no-op: it returns without an exception, leaves the world as it
is (so it issues no call) and leaves every member unchanged.  This holds for
every state of either class and every operating system.  Whether the first
`close()` of a `TPipe` returns is another matter: see the two theorems that
follow. -/
theorem close_then_close {σ : Type} (sys : Sys σ) (t : Transport) (w : World σ) :
    (t.close sys w).self.isOpen = false ∧
    (t.close sys w).self.close sys (t.close sys w).world
      = ⟨.ok (), (t.close sys w).self, (t.close sys w).world⟩ := by
  cases t with
  | namedPipe t =>
    simp [Transport.close, TNamedPipe.close, Outcome.lift, Transport.isOpen, TNamedPipe.isOpen]
  | pipe t =>
    by_cases h : t.hPipe_ = -1
    · simp [Transport.close, TPipe.close, Outcome.lift, Transport.isOpen, TPipe.isOpen, h]
    · by_cases hf : t.fPipe_ = NULL
      · simp [Transport.close, TPipe.close, Outcome.lift, Transport.isOpen, TPipe.isOpen, h, hf]
      · simp [Transport.close, TPipe.close, Outcome.lift, Transport.isOpen, TPipe.isOpen, h, hf]

/-- On a `TNamedPipe` in any state, and on a `TPipe` whose stream member is
null, `close()` passes no pointer to the C runtime: it returns without an
exception and its only call is the `CloseHandle` of an open transport. -/
theorem close_without_stream {σ : Type} (sys : Sys σ) (t : Transport) (w : World σ)
    (hstream : match t with
      | .namedPipe _ => True
      | .pipe p => p.fPipe_ = NULL) :
    (t.close sys w).result = .ok () ∧
    (t.close sys w).world.trace
      = w.trace ++ (if t.isOpen then [Call.CloseHandle t.readHandle] else []) := by
  cases t with
  | namedPipe t =>
    by_cases h : t.isOpen = true
    · simp [Transport.close, TNamedPipe.close, Outcome.lift, Transport.isOpen,
        Transport.readHandle, sysCall, h]
    · simp [Transport.close, TNamedPipe.close, Outcome.lift, Transport.isOpen,
        Transport.readHandle, h]
  | pipe t =>
    have hf : t.fPipe_ = NULL := hstream
    by_cases h : t.hPipe_ = -1
    · simp [Transport.close, TPipe.close, Outcome.lift, Transport.isOpen, TPipe.isOpen,
        Transport.readHandle, h]
    · simp [Transport.close, TPipe.close, Outcome.lift, Transport.isOpen, TPipe.isOpen,
        Transport.readHandle, sysCall, h, hf]

/-- The constructor `TPipe(int, int)` never assigns `fPipe_`, so `close()` on
the open object it builds passes whatever the storage held, when that is not
null, to `fclose` before it closes the read handle. -/
theorem pipe_ofHandles_close_trace {σ : Type} (sys : Sys σ) (raw : TPipe)
    (hPipeRd hPipeWrt : Int) (w : World σ) (hopen : hPipeRd ≠ -1)
    (hraw : raw.fPipe_ ≠ NULL) :
    (TPipe.ofHandles raw hPipeRd hPipeWrt).fPipe_ = raw.fPipe_ ∧
    ((TPipe.ofHandles raw hPipeRd hPipeWrt).close sys w).world.trace
      = w.trace ++ [.fclose raw.fPipe_, .CloseHandle hPipeRd] := by
  simp [TPipe.ofHandles, TPipe.close, TPipe.isOpen, sysCall, hopen, hraw]

/-- C7 fails on the `TPipe` that an anonymous-mode `acceptImpl()` returns: the
object is open on handle `28`, its member `fPipe_` still holds what the
allocation held (`0xCDCDCDCD`), and `close()` calls `fclose` on that value, which
is no stream of the C runtime, before it calls `CloseHandle(28)`. -/
theorem accepted_anon_pipe_close_uses_raw_stream :
    anonAccepted.result = .ok (TPipe.ofHandles rawPipe 28 24) ∧
    (Transport.pipe (TPipe.ofHandles rawPipe 28 24)).isOpen = true ∧
    (TPipe.ofHandles rawPipe 28 24).fPipe_ = 3452816845 ∧
    (((Transport.pipe (TPipe.ofHandles rawPipe 28 24)).close kernelSys
        anonAccepted.world).world.trace.drop anonAccepted.world.trace.length)
      = [.fclose 3452816845, .CloseHandle 28] :=
  ⟨rfl, by decide, by decide, by decide⟩

/-! ## Closing a server -/

/-- In named mode `close()` is idempotent on every operating system: the handle
is reset to `-1` and a second `close()` issues no call and changes nothing. -/
theorem named_server_close_idempotent {σ : Type} (sys : Sys σ) (s : TPipeServer)
    (w : World σ) (hnamed : s.isAnonymous = false) :
    (s.close sys w).self.Pipe_ = -1 ∧
    (s.close sys w).self.close sys (s.close sys w).world
      = ⟨.ok (), (s.close sys w).self, (s.close sys w).world⟩ := by
  by_cases h : s.Pipe_ = -1 <;> simp [TPipeServer.close, hnamed, h]

/-- C8 fails in anonymous mode: the server constructed by `TPipeServer(1024)`
holds the handles `28`, `24`, `20`, `32`; the first `close()` closes them and
resets none, and the second `close()` calls `CloseHandle` on each of the four
again. -/
theorem anon_server_close_twice :
    anonServer.result = .ok () ∧
    (anonServer.self.close kernelSys anonServer.world).self.Pipe_ = 28 ∧
    (anonServer.self.close kernelSys anonServer.world).self.PipeW_ = 24 ∧
    (anonServer.self.close kernelSys anonServer.world).self.ClientAnonRead = 20 ∧
    (anonServer.self.close kernelSys anonServer.world).self.ClientAnonWrite = 32 ∧
    (anonServer.self.close kernelSys anonServer.world).world.os.opened = [] ∧
    (((anonServer.self.close kernelSys anonServer.world).self.close kernelSys
        (anonServer.self.close kernelSys anonServer.world).world).world.trace.drop
      (anonServer.self.close kernelSys anonServer.world).world.trace.length)
      = [.CloseHandle 28, .CloseHandle 24, .CloseHandle 20, .CloseHandle 32] :=
  ⟨rfl, by decide, by decide, by decide, by decide, by decide, by decide⟩

/-! ## Ownership of an accepted transport -/

/-- C9 fails: after a successful named-mode `acceptImpl()` that returns an
open transport on handle `20`, the server still holds `20` in `Pipe_`; its
`close()` calls `CloseHandle(20)`, after which the handle is no longer open
although the transport still reports `isOpen()`; the transport's own `close()`
then calls `CloseHandle(20)` a second time. -/
theorem server_close_closes_accepted_handle :
    accepted.result = .ok (TPipe.ofHandle closedPipe 20) ∧
    (TPipe.ofHandle closedPipe 20).isOpen = true ∧
    accepted.self.isAnonymous = false ∧
    accepted.self.Pipe_ = 20 ∧
    accepted.world.os.opened = [20] ∧
    (accepted.self.close kernelSys accepted.world).world.trace
      = [.CreateNamedPipe "test-pipe" 2 4096, .ConnectNamedPipe 20, .CloseHandle 20] ∧
    (accepted.self.close kernelSys accepted.world).world.os.opened = [] ∧
    ((TPipe.ofHandle closedPipe 20).close kernelSys
        (accepted.self.close kernelSys accepted.world).world).world.trace
      = [.CreateNamedPipe "test-pipe" 2 4096, .ConnectNamedPipe 20, .CloseHandle 20,
         .CloseHandle 20] :=
  ⟨rfl, by decide, by decide, by decide, by decide, by decide, by decide, by decide⟩

/-- What `TCreateNamedPipe` does when `CreateNamedPipe` returns a valid handle. -/
theorem TCreateNamedPipe_valid {σ : Type} (sys : Sys σ) (s : TPipeServer) (w : World σ)
    (h : (sys (.CreateNamedPipe s.pipename_ s.maxconns_ s.bufsize_) w.os).1
      ≠ INVALID_HANDLE_VALUE) :
    s.TCreateNamedPipe sys w =
      ⟨.ok true,
       { s with Pipe_ := (sys (.CreateNamedPipe s.pipename_ s.maxconns_ s.bufsize_) w.os).1 },
       ⟨(sys (.CreateNamedPipe s.pipename_ s.maxconns_ s.bufsize_) w.os).2,
        w.trace ++ [.CreateNamedPipe s.pipename_ s.maxconns_ s.bufsize_]⟩⟩ := by
  simp [TPipeServer.TCreateNamedPipe, sysCall, h]

/-- A named-mode `acceptImpl()` issues at most one close call, and only on the
handle that its own `CreateNamedPipe` has just returned: it never closes the
handle of a transport accepted earlier. -/
theorem accept_closes_only_new_handle {σ : Type} (sys : Sys σ) (s : TPipeServer) (raw : TPipe)
    (w : World σ) (hnamed : s.isAnonymous = false) :
    ∀ c ∈ (s.acceptImpl sys raw w).world.trace.drop w.trace.length, c.isClose = true →
      c = .CloseHandle (sys (.CreateNamedPipe s.pipename_ s.maxconns_ s.bufsize_) w.os).1 := by
  by_cases hc1 : (sys (.CreateNamedPipe s.pipename_ s.maxconns_ s.bufsize_) w.os).1
      = INVALID_HANDLE_VALUE
  · simp [TPipeServer.acceptImpl, TPipeServer.TCreateNamedPipe, sysCall, hnamed, hc1,
      Call.isClose]
  · have hc2 : ¬ (sys (.CreateNamedPipe s.pipename_ s.maxconns_ s.bufsize_) w.os).1 = -1 := hc1
    unfold TPipeServer.acceptImpl
    rw [TCreateNamedPipe_valid sys s w hc1]
    simp only [hnamed]
    cases hn : (sys (.ConnectNamedPipe
        (sys (.CreateNamedPipe s.pipename_ s.maxconns_ s.bufsize_) w.os).1)
        (sys (.CreateNamedPipe s.pipename_ s.maxconns_ s.bufsize_) w.os).2).1
    · by_cases he : (sys .GetLastError (sys (.ConnectNamedPipe
          (sys (.CreateNamedPipe s.pipename_ s.maxconns_ s.bufsize_) w.os).1)
          (sys (.CreateNamedPipe s.pipename_ s.maxconns_ s.bufsize_) w.os).2).2).1
          = ERROR_PIPE_CONNECTED
      · simp [sysCall, hn, he, Call.isClose]
      · simp [TPipeServer.close, sysCall, hnamed, hc2, hn, he, Call.isClose]
    · simp [sysCall, hn, Call.isClose]

/-! ## Construction of an anonymous server -/

/-- A successful `CreatePipe` of the kernel hands out two distinct fresh
handles and enters them in the table. -/
theorem kernel_CreatePipe_some (k : Kernel) (r w : Handle)
    (h : (kernelSys .CreatePipe k).1 = some (r, w)) :
    (r ≠ INVALID_HANDLE_VALUE ∧ r ∉ k.opened) ∧ (w ≠ INVALID_HANDLE_VALUE ∧ w ∉ k.opened) ∧
    r ≠ w ∧ (kernelSys .CreatePipe k).2 = { k with opened := k.opened ++ [r, w],
                                                   script := k.script.tail } := by
  simp only [kernelSys, Kernel.createPipe] at h ⊢
  split at h
  · rename_i r0 w0 rest hs
    split at h
    · rename_i hf
      simp only [Option.some.injEq, Prod.mk.injEq] at h
      obtain ⟨rfl, rfl⟩ := h
      simp [Kernel.fresh] at hf
      simp [hs, hf, Kernel.fresh]
    · simp at h
  · simp at h
  · simp at h

/-- A failed `CreatePipe` of the kernel leaves the table as it is. -/
theorem kernel_CreatePipe_none (k : Kernel) (h : (kernelSys .CreatePipe k).1 = none) :
    (kernelSys .CreatePipe k).2.opened = k.opened := by
  simp only [kernelSys, Kernel.createPipe] at h ⊢
  split
  · rename_i r0 w0 rest hs
    split
    · rename_i hf
      simp [hs, hf] at h
    · rfl
  · rfl
  · rfl

/-- Closing the two handles of a pipe just created restores the table. -/
theorem kernel_close_pair (k : Kernel) (r w : Handle) (hr : r ∉ k.opened) (hw : w ∉ k.opened)
    (k1 : Kernel) (h1 : k1.opened = k.opened ++ [r, w]) :
    (kernelSys (.CloseHandle w) (kernelSys (.CloseHandle r) k1).2).2.opened = k.opened := by
  have e1 : (k.opened ++ [r, w]).erase r = k.opened ++ [w] := by
    rw [List.erase_append_right _ hr]; simp
  have e2 : (k.opened ++ [w]).erase w = k.opened := by
    rw [List.erase_append_right _ hw]; simp
  simp [kernelSys, Kernel.closeHandle, h1, e1, e2]

/-- The body of the anonymous constructors is all-or-nothing on the kernel
model, whatever members it starts from. -/
theorem anonBody_all_or_nothing (self : TPipeServer) (w : World Kernel) :
    AllOrNothing w (TPipeServer.anonBody kernelSys self w) := by
  unfold AllOrNothing
  cases h1 : (kernelSys .CreatePipe w.os).1 with
  | none =>
    have hn := kernel_CreatePipe_none w.os h1
    simp only [TPipeServer.anonBody, TPipeServer.TCreateAnonPipe, sysCall, h1]
    exact ⟨⟨_, rfl⟩, hn⟩
  | some p1 =>
    obtain ⟨cr, sw⟩ := p1
    obtain ⟨⟨hcr1, hcr2⟩, ⟨hsw1, hsw2⟩, hne1, hk1⟩ := kernel_CreatePipe_some w.os cr sw h1
    have ho1 : (kernelSys .CreatePipe w.os).2.opened = w.os.opened ++ [cr, sw] := by rw [hk1]
    cases h2 : (kernelSys .CreatePipe (kernelSys .CreatePipe w.os).2).1 with
    | none =>
      have hn := kernel_CreatePipe_none _ h2
      have hc := kernel_close_pair w.os cr sw hcr2 hsw2
        (kernelSys .CreatePipe (kernelSys .CreatePipe w.os).2).2 (hn.trans ho1)
      simp only [TPipeServer.anonBody, TPipeServer.TCreateAnonPipe, sysCall, h1, h2]
      refine ⟨⟨_, rfl⟩, hc, ?_⟩
      simp [List.filter_append, Call.isClose]
    | some p2 =>
      obtain ⟨sr, cw⟩ := p2
      obtain ⟨⟨hsr1, hsr2⟩, ⟨hcw1, hcw2⟩, hne2, hk2⟩ := kernel_CreatePipe_some _ sr cw h2
      rw [ho1] at hsr2 hcw2
      simp only [List.mem_append, List.mem_cons, List.mem_singleton, List.not_mem_nil,
        or_false, not_or] at hsr2 hcw2
      simp only [TPipeServer.anonBody, TPipeServer.TCreateAnonPipe, sysCall, h1, h2]
      refine ⟨trivial, trivial, trivial, trivial, trivial, ?_, ?_, ?_⟩
      · simp only [List.nodup_cons, List.mem_cons, List.mem_singleton, List.not_mem_nil,
          not_or, List.nodup_nil, or_false, not_false_eq_true, and_true]
        exact ⟨⟨hsr2.2.2, hsr2.2.1, hne2⟩, ⟨fun h => hne1 h.symm, fun h => hcw2.2.2 h.symm⟩,
          fun h => hcw2.2.1 h.symm⟩
      · intro h hh
        simp only [List.mem_cons, List.mem_singleton, List.not_mem_nil, or_false] at hh
        rcases hh with rfl | rfl | rfl | rfl
        · exact ⟨hsr1, hsr2.1⟩
        · exact ⟨hsw1, hsw2⟩
        · exact ⟨hcr1, hcr2⟩
        · exact ⟨hcw1, hcw2.1⟩
      · rw [hk2, ho1]; simp

/-- C10: construction of an anonymous server, by either constructor, is
all-or-nothing over the kernel's handle table, for every table and every
script of answers.  If both `CreatePipe` calls succeed the constructor returns
and the server holds four pairwise distinct handles, none of them `-1`, none
open before, and the table has grown by exactly these four.  If the first
fails the constructor throws `NOT_OPEN` and the table is as before.  If the
second fails after the first succeeded, `CloseHandle` is called on both
handles of the first pair, the table is as before, and the constructor throws
`NOT_OPEN`. -/
theorem anon_construction_all_or_nothing (raw : TPipeServer) (bufsize : Nat)
    (w : World Kernel) :
    AllOrNothing w (TPipeServer.anon1 kernelSys raw bufsize w) ∧
    AllOrNothing w (TPipeServer.anon0 kernelSys raw w) :=
  ⟨anonBody_all_or_nothing _ w, anonBody_all_or_nothing _ w⟩

/-- The three cases of C10 on concrete kernels: both pipes are created; the
first `CreatePipe` fails; the second fails and the first pair is closed. -/
theorem anon_construction_cases :
    (anonServer.result = .ok () ∧ anonServer.world.os.opened = [20, 24, 28, 32]) ∧
    ((TPipeServer.anon0 kernelSys rawServer (kernelWith [.fail 8])).result
        = .error ⟨.NOT_OPEN, " TPipeServer Create(Anon)Pipe failed"⟩ ∧
      (TPipeServer.anon0 kernelSys rawServer (kernelWith [.fail 8])).world.os.opened = [8]) ∧
    ((TPipeServer.anon0 kernelSys rawServer (kernelWith [.pipe 20 24, .fail 8])).result
        = .error ⟨.NOT_OPEN, " TPipeServer Create(Anon)Pipe failed"⟩ ∧
      (TPipeServer.anon0 kernelSys rawServer (kernelWith [.pipe 20 24, .fail 8])).world.os.opened
        = [8] ∧
      (TPipeServer.anon0 kernelSys rawServer (kernelWith [.pipe 20 24, .fail 8])).world.trace
        = [.CreatePipe, .CreatePipe, .GetLastError, .CloseHandle 20, .CloseHandle 24,
           .GetLastError]) :=
  ⟨⟨rfl, by decide⟩, ⟨rfl, by decide⟩, ⟨rfl, by decide, by decide⟩⟩

/-! ## The retry loop of `TPipe::open` -/

/-- The loop of `TPipe::open` with `n` passes: it makes `k ≤ n` failed attempts,
each followed by the wait, and then either has used up its passes or makes one
more attempt, which succeeds, and stops. -/
theorem openLoop_shape {σ : Type} (sys : Sys σ) (name : String) :
    ∀ (n : Nat) (f0 : FilePtr) (w : World σ),
      ∃ k, k ≤ n ∧ (∀ j, j < k → attemptAnswer sys name j w.os = NULL) ∧
        ((k = n ∧
            TPipe.openLoop sys name n f0 w =
              (if n = 0 then f0 else NULL,
               ⟨afterRounds sys name k w.os, w.trace ++ failedRounds name k⟩)) ∨
         (k < n ∧ attemptAnswer sys name k w.os ≠ NULL ∧
            TPipe.openLoop sys name n f0 w =
              (attemptAnswer sys name k w.os,
               ⟨(sys (.fopen name) (afterRounds sys name k w.os)).2,
                w.trace ++ failedRounds name k ++ [.fopen name]⟩))) := by
  intro n
  induction n with
  | zero =>
    intro f0 w
    exact ⟨0, le_refl 0, fun j hj => absurd hj (Nat.not_lt_zero j),
      Or.inl ⟨rfl, by simp [TPipe.openLoop, afterRounds, failedRounds]⟩⟩
  | succ n ih =>
    intro f0 w
    by_cases hf : (sys (.fopen name) w.os).1 = NULL
    · obtain ⟨k, hk, hfail, hcase⟩ := ih NULL (sysCall sys (.sleep 500)
        (sysCall sys (.fopen name) w).2).2
      have hunfold : TPipe.openLoop sys name (n + 1) f0 w =
          TPipe.openLoop sys name n NULL (sysCall sys (.sleep 500)
            (sysCall sys (.fopen name) w).2).2 := by
        simp [TPipe.openLoop, sysCall, hf]
      refine ⟨k + 1, Nat.succ_le_succ hk, ?_, ?_⟩
      · intro j hj
        cases j with
        | zero => simpa [attemptAnswer, afterRounds] using hf
        | succ j =>
          have := hfail j (Nat.lt_of_succ_lt_succ hj)
          simpa [attemptAnswer, afterRounds, sysCall] using this
      · rcases hcase with ⟨hkn, heq⟩ | ⟨hkn, hans, heq⟩
        · left
          refine ⟨by omega, ?_⟩
          rw [hunfold, heq]
          subst hkn
          cases k <;> simp [sysCall, afterRounds, failedRounds]
        · right
          refine ⟨by omega, ?_, ?_⟩
          · simpa [attemptAnswer, afterRounds, sysCall] using hans
          · rw [hunfold, heq]
            simp [sysCall, afterRounds, failedRounds, attemptAnswer]
    · refine ⟨0, Nat.zero_le _, fun j hj => absurd hj (Nat.not_lt_zero j), Or.inr ⟨?_, ?_, ?_⟩⟩
      · omega
      · simpa [attemptAnswer, afterRounds] using hf
      · simp [TPipe.openLoop, sysCall, hf, attemptAnswer, afterRounds, failedRounds]

/-- The calls of failed rounds: `k` open calls, `k` waits, every wait is
`sleep(500)`. -/
theorem failedRounds_counts (name : String) (k : Nat) :
    ((failedRounds name k).filter Call.isOpenCall).length = k ∧
    ((failedRounds name k).filter Call.isSleep).length = k ∧
    (∀ c ∈ failedRounds name k, c.isSleep = true → c = .sleep 500) := by
  induction k with
  | zero => simp [failedRounds]
  | succ k ih =>
    obtain ⟨h1, h2, h3⟩ := ih
    refine ⟨by simp [failedRounds, Call.isOpenCall, h1],
      by simp [failedRounds, Call.isSleep, h2], ?_⟩
    intro c hc hs
    simp only [failedRounds, List.mem_cons] at hc
    rcases hc with rfl | rfl | hc
    · simp [Call.isSleep] at hs
    · rfl
    · exact h3 c hc hs

/-- The number of passes of the loop never exceeds the budget `T * 1000 / 500`,
also when `T * 1000` leaves the range of `long`. -/
theorem retries_le_budget (t : TPipe) (hT : 0 ≤ t.TimeoutSeconds_) :
    t.retries.toNat ≤ retryBudget t.TimeoutSeconds_ := by
  unfold TPipe.retries retryBudget
  have hw : wrapInt32 (t.TimeoutSeconds_ * 1000) ≤ t.TimeoutSeconds_ * 1000 := by
    unfold wrapInt32; omega
  by_cases hneg : wrapInt32 (t.TimeoutSeconds_ * 1000) < 0
  · have h1 : (wrapInt32 (t.TimeoutSeconds_ * 1000)).tdiv 500 ≤ 0 := by
      have h2 := Int.tdiv_nonneg (a := -wrapInt32 (t.TimeoutSeconds_ * 1000)) (b := 500)
        (by omega) (by omega)
      rw [Int.neg_tdiv] at h2
      omega
    omega
  · rw [Int.tdiv_eq_ediv (by omega) (by omega)]
    omega

/-- Without overflow the loop makes exactly `T * 1000 / 500` passes. -/
theorem retries_eq_budget (t : TPipe) (hT : 0 ≤ t.TimeoutSeconds_)
    (hfit : t.TimeoutSeconds_ * 1000 < 2 ^ 31) :
    t.retries.toNat = retryBudget t.TimeoutSeconds_ := by
  unfold TPipe.retries retryBudget
  have hw : wrapInt32 (t.TimeoutSeconds_ * 1000) = t.TimeoutSeconds_ * 1000 := by
    unfold wrapInt32; omega
  rw [hw, Int.tdiv_eq_ediv (by omega) (by omega)]

/-- C12, amended: on every closed `TPipe` with connect timeout `T ≥ 0` and on
every operating system, `open()` terminates; it makes at most `T * 1000 / 500`
OS open attempts and at most that many waits, each `sleep(500)`; its attempts
fail up to the first that succeeds, after which it makes no further attempt
and returns; and if no attempt succeeds it throws `NOT_OPEN`, given that the
stream member `fPipe_` is null or the loop makes at least one pass. -/
theorem pipe_open_bounded {σ : Type} (sys : Sys σ) (t : TPipe) (w : World σ)
    (hclosed : t.isOpen = false) (hT : 0 ≤ t.TimeoutSeconds_)
    (hstream : t.fPipe_ = NULL ∨ 0 < t.retries) :
    ∃ k new, (t.open sys w).world.trace = w.trace ++ new ∧
      (new.filter Call.isOpenCall).length ≤ retryBudget t.TimeoutSeconds_ ∧
      (new.filter Call.isSleep).length ≤ retryBudget t.TimeoutSeconds_ ∧
      (∀ c ∈ new, c.isSleep = true → c = .sleep 500) ∧
      (∀ j, j < k → attemptAnswer sys t.pipename_ j w.os = NULL) ∧
      ((new = failedRounds t.pipename_ k ∧
          (t.open sys w).result = .error ⟨.NOT_OPEN, "Unable to open pipe"⟩) ∨
       (attemptAnswer sys t.pipename_ k w.os ≠ NULL ∧
          new = failedRounds t.pipename_ k
            ++ [.fopen t.pipename_, .get_osfhandle (attemptAnswer sys t.pipename_ k w.os)] ∧
          (t.open sys w).result = .ok ())) := by
  have hb := retries_le_budget t hT
  obtain ⟨k, hk, hfail, hcase⟩ := openLoop_shape sys t.pipename_ t.retries.toNat t.fPipe_ w
  obtain ⟨c1, c2, c3⟩ := failedRounds_counts t.pipename_ k
  rcases hcase with ⟨hkn, heq⟩ | ⟨hkn, hans, heq⟩
  · have hnull : (if t.retries.toNat = 0 then t.fPipe_ else NULL) = NULL := by
      rcases hstream with h | h
      · simp [h]
      · have : t.retries.toNat ≠ 0 := by omega
        simp [this]
    rw [hnull] at heq
    refine ⟨k, failedRounds t.pipename_ k, ?_, by omega, by omega, c3, hfail, Or.inl ⟨rfl, ?_⟩⟩
    · simp [TPipe.open, hclosed, heq]
    · simp [TPipe.open, hclosed, heq]
  · have hne : (attemptAnswer sys t.pipename_ k w.os == NULL) = false := by
      simpa using hans
    refine ⟨k, failedRounds t.pipename_ k
      ++ [.fopen t.pipename_, .get_osfhandle (attemptAnswer sys t.pipename_ k w.os)],
      ?_, ?_, ?_, ?_, hfail, Or.inr ⟨hans, rfl, ?_⟩⟩
    · simp [TPipe.open, hclosed, heq, hne, sysCall]
    · simp [List.filter_append, Call.isOpenCall, c1]; omega
    · simp [List.filter_append, Call.isSleep, c2]; omega
    · intro c hc hs
      simp only [List.mem_append, List.mem_cons, List.mem_singleton, List.not_mem_nil,
        or_false] at hc
      rcases hc with hc | rfl | rfl
      · exact c3 c hc hs
      · simp [Call.isSleep] at hs
      · simp [Call.isSleep] at hs
    · simp [TPipe.open, hclosed, heq, hne]

/-- Witness for the amended C12: the closed `TPipe("test-pipe")`, timeout `3`,
on a kernel whose first attempt fails and whose second succeeds. -/
theorem pipe_open_bounded_witness :
    closedPipe.isOpen = false ∧
    ∃ new, (closedPipe.open kernelSys
          (kernelWith [.fail ERROR_PIPE_BUSY, .file 5, .handle 20])).world.trace = [] ++ new ∧
      (new.filter Call.isOpenCall).length ≤ 6 :=
  ⟨by decide,
   match pipe_open_bounded kernelSys closedPipe
       (kernelWith [.fail ERROR_PIPE_BUSY, .file 5, .handle 20])
       (by decide) (by decide) (Or.inl rfl) with
   | ⟨_, new, h1, h2, _⟩ => ⟨new, h1, h2⟩⟩

/-- C12, as stated, fails: the `TPipe` built by `TPipe(FILE*)` with the timeout
set to `0` is closed; `open()` makes no attempt, so none succeeds, and yet it
returns normally, on the stream it was constructed with. -/
theorem stale_stream_open_returns :
    streamPipe.isOpen = false ∧ 0 ≤ streamPipe.TimeoutSeconds_ ∧
    retryBudget streamPipe.TimeoutSeconds_ = 0 ∧
    (streamPipe.open kernelSys (kernelWith [.handle 20])).result = .ok () ∧
    (streamPipe.open kernelSys (kernelWith [.handle 20])).world.trace = [.get_osfhandle 5] :=
  ⟨by decide, by decide, by decide, rfl, by decide⟩

/-! ## How `open()` classifies failure -/

/-- C11, as stated, fails on `TPipe`: with the pipe busy at every one of the six
attempts of the budget, `open()` throws `NOT_OPEN`, not `TIMED_OUT`; and after
an attempt that fails with another error (`ERROR_FILE_NOT_FOUND`) it waits and
makes a further attempt. -/
theorem pipe_open_does_not_classify :
    closedPipe.isOpen = false ∧ closedPipe.retries = 6 ∧
    (closedPipe.open kernelSys (busyKernel 6)).result
      = .error ⟨.NOT_OPEN, "Unable to open pipe"⟩ ∧
    (closedPipe.open kernelSys (busyKernel 6)).world.os.lastError = ERROR_PIPE_BUSY ∧
    (closedPipe.open kernelSys (busyKernel 6)).world.trace = failedRounds "test-pipe" 6 ∧
    (kernelSys (.fopen "test-pipe")
        (kernelWith [.fail ERROR_FILE_NOT_FOUND, .file 5, .handle 20]).os).2.lastError
      = ERROR_FILE_NOT_FOUND ∧
    (closedPipe.open kernelSys
        (kernelWith [.fail ERROR_FILE_NOT_FOUND, .file 5, .handle 20])).world.trace
      = [.fopen "test-pipe", .sleep 500, .fopen "test-pipe", .get_osfhandle 5] :=
  ⟨by decide, by decide, rfl, by decide, by decide, by decide, by decide⟩

/-- C11, amended: on a `TNamedPipe`, when the `CreateFile` attempt fails with an
error other than `ERROR_PIPE_BUSY`, `open()` throws `NOT_OPEN` at once: its only
calls are that `CreateFile` and the `GetLastError`, no further attempt and no
wait.  On a closed `TPipe` whose stream member `fPipe_` is null or whose loop
makes at least one pass, `open()` does not look at the error: when every
attempt of its budget fails, for whatever reason, it has made exactly the
attempts of the budget, has waited after each of them, and throws `NOT_OPEN`. -/
theorem open_failure_classes {σ : Type} (sys : Sys σ) (tn : TNamedPipe) (tp : TPipe)
    (wn wp : World σ)
    (hinvalid : (sys (.CreateFile tn.pipeName_) wn.os).1 = INVALID_HANDLE_VALUE)
    (hother : (sys .GetLastError (sys (.CreateFile tn.pipeName_) wn.os).2).1 ≠ ERROR_PIPE_BUSY)
    (hclosed : tp.isOpen = false) (hstream : tp.fPipe_ = NULL ∨ 0 < tp.retries)
    (hall : ∀ j, j < tp.retries.toNat → attemptAnswer sys tp.pipename_ j wp.os = NULL) :
    ((tn.open sys wn).result = .error ⟨.NOT_OPEN, "Unable to open pipe"⟩ ∧
      (tn.open sys wn).world.trace
        = wn.trace ++ [.CreateFile tn.pipeName_, .GetLastError]) ∧
    ((tp.open sys wp).result = .error ⟨.NOT_OPEN, "Unable to open pipe"⟩ ∧
      (tp.open sys wp).world.trace
        = wp.trace ++ failedRounds tp.pipename_ tp.retries.toNat) := by
  constructor
  · simp [TNamedPipe.open, sysCall, hinvalid, hother]
  · obtain ⟨k, hk, _, hcase⟩ := openLoop_shape sys tp.pipename_ tp.retries.toNat tp.fPipe_ wp
    rcases hcase with ⟨hkn, heq⟩ | ⟨hkn, hans, _⟩
    · have hnull : (if tp.retries.toNat = 0 then tp.fPipe_ else NULL) = NULL := by
        rcases hstream with h | h
        · simp [h]
        · have : tp.retries.toNat ≠ 0 := by omega
          simp [this]
      rw [hnull] at heq
      subst hkn
      simp [TPipe.open, hclosed, heq]
    · exact absurd (hall k hkn) hans

/-- Witness for the amended C11: the closed `TNamedPipe` on a kernel whose
`CreateFile` fails with `ERROR_FILE_NOT_FOUND`, and the closed `TPipe` on a
kernel where the pipe is busy at all six attempts. -/
theorem open_failure_classes_witness :
    (closedNamedPipe.open kernelSys (kernelWith [.fail ERROR_FILE_NOT_FOUND])).world.trace
      = [.CreateFile "test-pipe", .GetLastError] ∧
    (closedPipe.open kernelSys (busyKernel 6)).result
      = .error ⟨.NOT_OPEN, "Unable to open pipe"⟩ :=
  ⟨(open_failure_classes kernelSys closedNamedPipe closedPipe
      (kernelWith [.fail ERROR_FILE_NOT_FOUND]) (busyKernel 6)
      (by decide) (by decide) (by decide) (Or.inl rfl) (by decide)).1.2,
   (open_failure_classes kernelSys closedNamedPipe closedPipe
      (kernelWith [.fail ERROR_FILE_NOT_FOUND]) (busyKernel 6)
      (by decide) (by decide) (by decide) (Or.inl rfl) (by decide)).2.1⟩

/-! ## `open()` on an open transport -/

/-- On an open `TPipe`, `open()` is a no-op on every operating system: it
returns normally, issues no call and leaves every member unchanged. -/
theorem pipe_open_noop {σ : Type} (sys : Sys σ) (t : TPipe) (w : World σ)
    (hopen : t.isOpen = true) :
    t.open sys w = ⟨.ok (), t, w⟩ := by
  simp [TPipe.open, hopen]

/-- C13 fails on `TNamedPipe`: the transport is open on handle `8`; `open()`
calls `CreateFile` all the same and stores the new handle `12` over the old
one, which stays open in the kernel's table with no owner left. -/
theorem named_pipe_open_replaces_handle :
    (Transport.namedPipe openNamedPipe).isOpen = true ∧
    ((Transport.namedPipe openNamedPipe).open kernelSys (kernelWith [.handle 12])).result
      = .ok () ∧
    ((Transport.namedPipe openNamedPipe).open kernelSys (kernelWith [.handle 12])).world.trace
      = [.CreateFile "test-pipe"] ∧
    ((Transport.namedPipe openNamedPipe).open kernelSys (kernelWith [.handle 12])).self
      = .namedPipe { pipeName_ := "test-pipe", hPipe_ := 12 } ∧
    ((Transport.namedPipe openNamedPipe).open kernelSys (kernelWith [.handle 12])).world.os.opened
      = [8, 12] :=
  ⟨by decide, rfl, by decide, by decide, by decide⟩

/-- On the same open `TNamedPipe`, an `open()` whose `CreateFile` fails throws
`NOT_OPEN` and leaves the transport closed, the old handle `8` still open in
the table. -/
theorem named_pipe_open_loses_handle :
    ((Transport.namedPipe openNamedPipe).open kernelSys
        (kernelWith [.fail ERROR_FILE_NOT_FOUND])).result
      = .error ⟨.NOT_OPEN, "Unable to open pipe"⟩ ∧
    ((Transport.namedPipe openNamedPipe).open kernelSys
        (kernelWith [.fail ERROR_FILE_NOT_FOUND])).self.isOpen = false ∧
    ((Transport.namedPipe openNamedPipe).open kernelSys
        (kernelWith [.fail ERROR_FILE_NOT_FOUND])).world.os.opened = [8] :=
  ⟨rfl, by decide, by decide⟩

/-! ## The maximum instance count of a server -/

/-- The body of the anonymous constructors never changes `maxconns_`. -/
theorem anonBody_maxconns {σ : Type} (sys : Sys σ) (self : TPipeServer) (w : World σ) :
    (TPipeServer.anonBody sys self w).self.maxconns_ = self.maxconns_ := by
  unfold TPipeServer.anonBody TPipeServer.TCreateAnonPipe
  cases h1 : (sysCall sys .CreatePipe w).1 with
  | none => simp [h1]
  | some p1 =>
    obtain ⟨cr, sw⟩ := p1
    cases h2 : (sysCall sys .CreatePipe (sysCall sys .CreatePipe w).2).1 with
    | none => simp [h1, h2]
    | some p2 =>
      obtain ⟨sr, cw⟩ := p2
      simp [h1, h2]

/-- C14: for every byte value `m` passed as `maxconnections` to the
three-argument named constructor, the stored maximum instance count is `m`
when `m > 0` and `1` when `m = 0`, so it lies in `[1, 255]`; both anonymous
constructors store `1`, on every operating system and whether or not they
throw; the other two named constructors store
`TPIPE_SERVER_MAX_CONNS_DEFAULT`, which is at least `1`. -/
theorem maxconns_stored {σ : Type} (sys : Sys σ) (raw : TPipeServer) (pipename : String)
    (bufsize m : Nat) (w : World σ) (hbyte : m < 256) :
    ((TPipeServer.named3 raw pipename bufsize m).maxconns_ = (if 0 < m then (m : Int) else 1) ∧
      1 ≤ (TPipeServer.named3 raw pipename bufsize m).maxconns_ ∧
      (TPipeServer.named3 raw pipename bufsize m).maxconns_ ≤ 255) ∧
    ((TPipeServer.anon1 sys raw bufsize w).self.maxconns_ = 1 ∧
      (TPipeServer.anon0 sys raw w).self.maxconns_ = 1) ∧
    ((TPipeServer.named2 raw pipename bufsize).maxconns_ = TPIPE_SERVER_MAX_CONNS_DEFAULT ∧
      (TPipeServer.named1 raw pipename).maxconns_ = TPIPE_SERVER_MAX_CONNS_DEFAULT ∧
      1 ≤ TPIPE_SERVER_MAX_CONNS_DEFAULT) := by
  refine ⟨?_, ⟨?_, ?_⟩, rfl, rfl, by decide⟩
  · by_cases h : 0 < m
    · simp only [TPipeServer.named3, gt_iff_lt, h, if_true]
      refine ⟨trivial, ?_, ?_⟩ <;> omega
    · have h0 : m = 0 := by omega
      subst h0
      simp [TPipeServer.named3]
  · simp [TPipeServer.anon1, anonBody_maxconns]
  · simp [TPipeServer.anon0, anonBody_maxconns]

/-- Witness for C14: `maxconnections = 0` is stored as `1`. -/
theorem maxconns_stored_witness :
    (0 : Nat) < 256 ∧ (TPipeServer.named3 rawServer "test-pipe" 4096 0).maxconns_ = 1 :=
  ⟨by decide,
   (maxconns_stored kernelSys rawServer "test-pipe" 4096 0 (kernelWith []) (by decide)).1.1⟩

/-! ## The outcomes of `open()` -/

/-- C15 fails on `TNamedPipe`: the transport is closed, `CreateFile` fails with
`ERROR_PIPE_BUSY`, and `open()` returns normally while `isOpen()` is still
false. -/
theorem named_pipe_open_busy_returns_closed :
    (Transport.namedPipe closedNamedPipe).isOpen = false ∧
    (kernelSys (.CreateFile "test-pipe") (busyKernel 1).os).1 = INVALID_HANDLE_VALUE ∧
    (kernelSys (.CreateFile "test-pipe") (busyKernel 1).os).2.lastError = ERROR_PIPE_BUSY ∧
    ((Transport.namedPipe closedNamedPipe).open kernelSys (busyKernel 1)).result = .ok () ∧
    ((Transport.namedPipe closedNamedPipe).open kernelSys (busyKernel 1)).self.isOpen = false ∧
    ((Transport.namedPipe closedNamedPipe).open kernelSys (busyKernel 1)).world.trace
      = [.CreateFile "test-pipe", .GetLastError] :=
  ⟨by decide, by decide, by decide, rfl, by decide, by decide⟩

/-- Apart from the busy case, `TNamedPipe::open` has the two outcomes of C15 on
every operating system: it returns with the transport open, or throws with it
closed. -/
theorem named_pipe_open_outcomes {σ : Type} (sys : Sys σ) (t : TNamedPipe) (w : World σ) :
    ((t.open sys w).result = .ok () ∧ (t.open sys w).self.isOpen = true) ∨
    ((∃ e, (t.open sys w).result = .error e) ∧ (t.open sys w).self.isOpen = false) ∨
    ((t.open sys w).result = .ok () ∧ (t.open sys w).self.isOpen = false ∧
      (sys (.CreateFile t.pipeName_) w.os).1 = INVALID_HANDLE_VALUE ∧
      (sys .GetLastError (sys (.CreateFile t.pipeName_) w.os).2).1 = ERROR_PIPE_BUSY) := by
  by_cases h1 : (sys (.CreateFile t.pipeName_) w.os).1 = INVALID_HANDLE_VALUE
  · by_cases h2 : (sys .GetLastError (sys (.CreateFile t.pipeName_) w.os).2).1 = ERROR_PIPE_BUSY
    · right; right
      simp [TNamedPipe.open, TNamedPipe.isOpen, sysCall, h1, h2]
    · right; left
      simp [TNamedPipe.open, TNamedPipe.isOpen, sysCall, h1, h2]
  · left
    simp [TNamedPipe.open, TNamedPipe.isOpen, sysCall, h1]

/-- `TPipe::open` has the two outcomes of C15 on every operating system but for
one case: `_get_osfhandle` answers `-1` for the stream just opened, and
`open()` returns with `isOpen()` false. -/
theorem pipe_open_outcomes {σ : Type} (sys : Sys σ) (t : TPipe) (w : World σ) :
    ((t.open sys w).result = .ok () ∧ (t.open sys w).self.isOpen = true) ∨
    ((∃ e, (t.open sys w).result = .error e) ∧ (t.open sys w).self.isOpen = false) ∨
    ((t.open sys w).result = .ok () ∧ (t.open sys w).self.isOpen = false ∧
      (t.open sys w).self.fPipe_ ≠ NULL ∧
      (t.open sys w).world.trace.getLast? = some (.get_osfhandle (t.open sys w).self.fPipe_)) := by
  by_cases ho : t.isOpen = true
  · left
    simp [TPipe.open, ho]
  · have hc : t.isOpen = false := by simpa using ho
    have hh : t.hPipe_ = -1 := by simpa [TPipe.isOpen] using hc
    by_cases hl : (TPipe.openLoop sys t.pipename_ t.retries.toNat t.fPipe_ w).1 = NULL
    · right; left
      simp [TPipe.open, hl, TPipe.isOpen, hh]
    · by_cases hv : (sys (.get_osfhandle
          (TPipe.openLoop sys t.pipename_ t.retries.toNat t.fPipe_ w).1)
          (TPipe.openLoop sys t.pipename_ t.retries.toNat t.fPipe_ w).2.os).1 = -1
      · right; right
        simp [TPipe.open, hl, TPipe.isOpen, hh, sysCall, hv]
      · left
        simp [TPipe.open, hl, TPipe.isOpen, hh, sysCall, hv]

end Thrift
